import Mathlib

/-!
# Verification of the Create UPDM Geodatabase tool (`Scripts/CreateUPDM.py`)

This file gives a shallow embedding of the script's pure logic and proves
properties about it.

Modelling conventions:

* XML elements (`xml.etree.ElementTree`) are modelled by the inductive type
  `XElem`.  Each element carries an `eid : Nat` modelling Python object
  identity (distinct parsed elements have distinct `eid`s); `tag`, an
  association list of attributes, an optional text, and a child list.
* Numbers are modelled by `ℚ` (the script's arithmetic on tolerances and
  conversion factors is exact decimal arithmetic up to float rounding;
  the rational model makes the algebra exact).
* Fallible code paths (Python exceptions: `AttributeError` on `None`,
  `KeyError`/`ValueError` on missing dictionary/list entries, `TypeError` in
  `os.path.join`) are modelled by `Option`/`Except` results, with `none`
  (resp. `.error`) marking the raising path.
* External `arcpy` calls are opaque collaborators: existence checks become
  oracle functions `String → Bool`, destructive calls become entries of an
  `Action` trace.
-/

/-! ## Generic XML element model (`xml.etree.ElementTree` subset) -/

inductive XElem : Type where
  | node (eid : Nat) (tag : String) (attrs : List (String × String))
      (text : Option String) (children : List XElem)

mutual

def XElem.beq : XElem → XElem → Bool
  | .node i t a x cs, .node i' t' a' x' cs' =>
    i == i' && t == t' && a == a' && x == x' && XElem.beqL cs cs'

def XElem.beqL : List XElem → List XElem → Bool
  | [], [] => true
  | c :: cs, c' :: cs' => XElem.beq c c' && XElem.beqL cs cs'
  | _, _ => false

end

instance : BEq XElem := ⟨XElem.beq⟩

def XElem.eid : XElem → Nat
  | .node i _ _ _ _ => i

def XElem.tag : XElem → String
  | .node _ t _ _ _ => t

def XElem.attrs : XElem → List (String × String)
  | .node _ _ a _ _ => a

def XElem.text : XElem → Option String
  | .node _ _ _ x _ => x

def XElem.children : XElem → List XElem
  | .node _ _ _ _ cs => cs

/-- First-match lookup in an association list
(Python `dict` read access; keys are unique in all uses). -/
def lookupTbl {κ α : Type} [DecidableEq κ] (k : κ) : List (κ × α) → Option α
  | [] => none
  | (a, v) :: rest => if a = k then some v else lookupTbl k rest

/-- Python `dict` write access: replace the value of an existing key in place,
otherwise append the new pair (insertion-ordered dict semantics). -/
def setTbl {α : Type} (k : String) (v : α) : List (String × α) → List (String × α)
  | [] => [(k, v)]
  | (a, w) :: rest => if a = k then (k, v) :: rest else (a, w) :: setTbl k v rest

/-- `element.get(name, None)` -/
def XElem.getA (e : XElem) (k : String) : Option String := lookupTbl k e.attrs

/-- `element.set(name, value)` -/
def XElem.setA (e : XElem) (k v : String) : XElem :=
  .node e.eid e.tag (setTbl k v e.attrs) e.text e.children

/-- `element.find(tag)`: first direct child with the given tag. -/
def findChildTag (t : String) : List XElem → Option XElem
  | [] => none
  | c :: cs => if c.tag = t then some c else findChildTag t cs

def XElem.find1 (e : XElem) (t : String) : Option XElem := findChildTag t e.children

/-- `element.find("Tag[@Name='value']")`: first direct child with the given
tag whose `Name` attribute has the given value. -/
def findChildTagName (t nv : String) : List XElem → Option XElem
  | [] => none
  | c :: cs =>
    if c.tag = t ∧ c.getA "Name" = some nv then some c else findChildTagName t nv cs

/-- `element.findall(tag)`: all direct children with the given tag. -/
def XElem.findall (e : XElem) (t : String) : List XElem :=
  e.children.filter (fun c => c.tag == t)

/-- Python truthiness of an `ElementTree` element: truthy iff it has children
(`None` is handled at the call sites via `Option`). -/
def XElem.truthy (e : XElem) : Bool := !e.children.isEmpty

/-- Replace the (unique) child with object identity `cid`
(in-place mutation of a found child, reflected functionally). -/
def replaceById (cid : Nat) (new : XElem) : List XElem → List XElem
  | [] => []
  | c :: cs => if c.eid = cid then new :: cs else c :: replaceById cid new cs

/-- `list.remove(x)`: drop the first child with object identity `cid`. -/
def removeById (cid : Nat) : List XElem → List XElem
  | [] => []
  | c :: cs => if c.eid = cid then cs else c :: removeById cid cs

/-- `list.insert(i, x)` for a nonnegative index: Python clamps an index past
the end to an append. -/
def pyInsert {α : Type} (i : Nat) (x : α) : List α → List α
  | [] => [x]
  | a :: l =>
    match i with
    | 0 => x :: a :: l
    | j + 1 => a :: pyInsert j x l

/-- Rebuild an element with new children (identity, tag, attrs, text kept). -/
def withChildren (e : XElem) (cs : List XElem) : XElem :=
  .node e.eid e.tag e.attrs e.text cs

/-- ASCII lower-casing of one character (Python `str.lower()` on the ASCII
unit names used here). -/
def lowerChar (c : Char) : Char :=
  if 'A' ≤ c ∧ c ≤ 'Z' then Char.ofNat (c.toNat + 32) else c

/-- Python `units.lower()` (structurally recursive, unlike `String.toLower`,
so that proofs can evaluate it). -/
def pyLower (s : String) : String := ⟨s.data.map lowerChar⟩

/-! ## `convertUnits` (units-per-meter conversion table) -/

/-- The `unitsConversions` table of `convertUnits`, with the factors as exact
rationals (the decimal literals of the source denote these values). -/
def unitsConversions : List (String × ℚ) :=
  [ ("centimeters", 100)
  , ("decimeters", 10)
  , ("feet", 3.2808398950131)
  , ("inches", 39.370078740157)
  , ("kilometers", 0.001)
  , ("meters", 1)
  , ("miles", 0.00062137119223733)
  , ("millimeters", 1000)
  , ("nautical miles", 0.00053995680345572)
  , ("nautical_miles", 0.00053995680345572)
  , ("yards", 1.0936132983377) ]

def unitKeys : List String := unitsConversions.map Prod.fst

/-- `convertUnits(distance, toUnits, fromUnits)`.  `float(distance)` always
succeeds on the numeric model; `None` unit names follow the source's
early-return; a missing table entry takes the `logError` path, which raises
`arcpy.ExecuteError` with the fixed message (re-raised unchanged by the
surrounding `except` block). -/
def convertUnits (distance : ℚ) (toUnits fromUnits : Option String) : Except String ℚ :=
  match fromUnits.map pyLower, toUnits.map pyLower with
  | none, _ => .ok distance
  | _, none => .ok distance
  | some f, some t =>
    if f = t then .ok distance
    else
      match lookupTbl t unitsConversions, lookupTbl f unitsConversions with
      | some tc, some fc => .ok (tc / fc * distance)
      | _, _ => .error "Cannot calculate m tolerance and resolution."

/-! ## `addIndex` (index name generation) -/

/-- The loop body of `addIndex`: issues one `AddIndex_management` call per
table (returned as `(table, indexName)` pairs in call order); after each
successful call `i` is incremented and the next name is
`indexName ++ "_" ++ str(i)`. -/
def addIndexGo (indexName : String) : Nat → String → List String → List (String × String)
  | _, _, [] => []
  | i, newIndexName, t :: ts =>
    (t, newIndexName) :: addIndexGo indexName (i + 1) (indexName ++ "_" ++ Nat.repr (i + 1)) ts

/-- `addIndex(indexName, fields, tables, counter)`: the sequence of
`(table, index name)` pairs of the `AddIndex_management` calls it issues
(the `fields` argument and the progressor counter do not affect naming). -/
def addIndex (indexName : String) (tables : List String) : List (String × String) :=
  addIndexGo indexName 1 indexName tables

/-- The name sequence `base, base_2, ..., base_K` for `K` tables
(following the spec's description of the generated names). -/
def indexNameSeq (base : String) : Nat → List String
  | 0 => []
  | k + 1 => base :: (List.range' 2 k).map (fun j => base ++ "_" ++ Nat.repr j)

/-! ## LRS metadata patcher (`setDerivedNetwork` / `updateContinuousMetadata`)

Both functions run an update cursor over the single `Lrs_Metadata` row,
parse the `Metadata` blob into an XML tree, mutate it, and write it back.
They are modelled as functions on the parsed tree; `none` models the
raising paths (`AttributeError` on a missing `find` result,
`ValueError` on `list.remove`). -/

/-- The per-event-table attribute writes of `setDerivedNetwork`. -/
def setDerivedEventTable (et : XElem) : XElem :=
  let et1 := ((et.setA "DerivedRouteIdFieldName" "CONTINROUTEID").setA
      "DerivedRouteNameFieldName" "CONTINROUTENAME").setA
      "StoreFieldsFromDerivedNetworkWithEventRecords" "true"
  if et1.getA "IsPointEvent" = some "true" then
    et1.setA "DerivedFromMeasureFieldName" "CONTINM"
  else
    (et1.setA "DerivedFromMeasureFieldName" "CONTINFROMM").setA
      "DerivedToMeasureFieldName" "CONTINTOM"

/-- `for eventTable in events.findall("EventTable")`: each `EventTable`
child is mutated in place, other children are untouched. -/
def setDerivedEventTables (cs : List XElem) : List XElem :=
  cs.map (fun c => if c.tag == "EventTable" then setDerivedEventTable c else c)

/-- `setDerivedNetwork` on one parsed metadata blob.  The two `if` guards
are Python truthiness tests on elements (`None` or childless → falsy). -/
def setDerivedNetwork (doc : XElem) : Option XElem :=
  match doc.find1 "Networks" with
  | none => none
  | some networks =>
    let cn? := findChildTagName "Network" "P_ContinuousNetwork" networks.children
    let en? := findChildTagName "Network" "P_EngineeringNetwork" networks.children
    let afterCn : List XElem :=
      match cn? with
      | some cn =>
        if cn.truthy then
          replaceById cn.eid
            ((cn.setA "DerivedFromNetwork" "2").setA "IsDerived" "true") networks.children
        else networks.children
      | none => networks.children
    match en? with
    | none => some (withChildren doc (replaceById networks.eid (withChildren networks afterCn) doc.children))
    | some en =>
      if en.truthy then
        match en.find1 "EventTables" with
        | none => none
        | some events =>
          let en2 := withChildren en
            (replaceById events.eid (withChildren events (setDerivedEventTables events.children)) en.children)
          some (withChildren doc
            (replaceById networks.eid (withChildren networks (replaceById en.eid en2 afterCn)) doc.children))
      else
        some (withChildren doc (replaceById networks.eid (withChildren networks afterCn) doc.children))

/-- The per-event-table attribute writes of `updateContinuousMetadata`. -/
def updateContinuousEventTable (et : XElem) : XElem :=
  let et1 := (((et.setA "ToRouteIdFieldName" "").setA "ToRouteNameFieldName" "").setA
      "RouteIdFieldName" "CONTINROUTEID").setA "RouteNameFieldName" "CONTINROUTENAME"
  if et1.getA "IsPointEvent" = some "true" then
    et1.setA "FromMeasureFieldName" "CONTINM"
  else
    (et1.setA "FromMeasureFieldName" "CONTINFROMM").setA "ToMeasureFieldName" "CONTINTOM"

def updateContinuousEventTables (cs : List XElem) : List XElem :=
  cs.map (fun c => if c.tag == "EventTable" then updateContinuousEventTable c else c)

/-- `updateContinuousMetadata` on one parsed metadata blob: rewrite every
event table under the engineering network, then swap the two networks'
`EventTables` children (`remove` by object identity, `insert` at index 1). -/
def updateContinuousMetadata (doc : XElem) : Option XElem :=
  match doc.find1 "Networks" with
  | none => none
  | some networks =>
    match findChildTagName "Network" "P_ContinuousNetwork" networks.children,
          findChildTagName "Network" "P_EngineeringNetwork" networks.children with
    | some cn, some sn =>
      match cn.find1 "EventTables", sn.find1 "EventTables" with
      | some emptyEvents, some events =>
        let events2 := withChildren events (updateContinuousEventTables events.children)
        let cn2 := withChildren cn (pyInsert 1 events2 (removeById emptyEvents.eid cn.children))
        let sn2 := withChildren sn (pyInsert 1 emptyEvents (removeById events.eid sn.children))
        some (withChildren doc
          (replaceById networks.eid
            (withChildren networks (replaceById sn.eid sn2 (replaceById cn.eid cn2 networks.children)))
            doc.children))
      | _, _ => none
    | _, _ => none

/-! ## Pre-flight name checks (`checkDatasetNames` / `checkDomainNames` / `checkNames`) -/

/-- `getXmlProperty(element, propertyName)`: text of the first child with the
given tag, or `None`. -/
def getXmlProperty (element : Option XElem) (propertyName : Option String) : Option String :=
  match element, propertyName with
  | some el, some pn =>
    match findChildTag pn el.children with
    | some pv => pv.text
    | none => none
  | _, _ => none

/-- The `DataElement` loop of `checkDatasetNames`.  A `DataElement` whose
`Name` property is missing makes `getFullTableName(None)` raise a
`TypeError` inside `os.path.join` (modelled by `none`).  The existence
check `arcpy.Exists` is the oracle `g` over declared names. -/
def collectDatasetConflicts (g : String → Bool) : List XElem → Option (List String)
  | [] => some []
  | de :: rest =>
    match getXmlProperty (some de) (some "Name") with
    | none => none
    | some n =>
      match collectDatasetConflicts g rest with
      | none => none
      | some l => some (if g n then n :: l else l)

def checkDatasetNamesDoc (g : String → Bool) (doc : XElem) : Option (List String) :=
  match doc.find1 "WorkspaceDefinition" with
  | none => none
  | some wd =>
    match wd.find1 "DatasetDefinitions" with
    | none => none
    | some dd => collectDatasetConflicts g (dd.findall "DataElement")

/-- `checkDatasetNames(workspaceXmls, gdb)`: one conflict list accumulated
across the documents in order. -/
def checkDatasetNames (docs : List XElem) (g : String → Bool) : Option (List String) :=
  match docs with
  | [] => some []
  | doc :: rest =>
    match checkDatasetNamesDoc g doc, checkDatasetNames rest g with
    | some l, some l' => some (l ++ l')
    | _, _ => none

/-- The declared dataset names of the documents, without the existence
filter (following the spec's words: the schema's declared dataset names). -/
def collectDatasetNames : List XElem → Option (List String)
  | [] => some []
  | de :: rest =>
    match getXmlProperty (some de) (some "Name") with
    | none => none
    | some n =>
      match collectDatasetNames rest with
      | none => none
      | some l => some (n :: l)

def declaredDatasetNamesDoc (doc : XElem) : Option (List String) :=
  match doc.find1 "WorkspaceDefinition" with
  | none => none
  | some wd =>
    match wd.find1 "DatasetDefinitions" with
    | none => none
    | some dd => collectDatasetNames (dd.findall "DataElement")

def declaredDatasetNames (docs : List XElem) : Option (List String) :=
  match docs with
  | [] => some []
  | doc :: rest =>
    match declaredDatasetNamesDoc doc, declaredDatasetNames rest with
    | some l, some l' => some (l ++ l')
    | _, _ => none

/-- The `Domain` loop of `checkDomainNames`: a missing `DomainName` makes
`existingDomainsObject.get(None, False)` return `False` (no crash, the
domain is skipped); `gd` is the oracle for the existing-domain dictionary. -/
def collectDomainConflicts (gd : String → Bool) : List XElem → List String
  | [] => []
  | dom :: rest =>
    match getXmlProperty (some dom) (some "DomainName") with
    | none => collectDomainConflicts gd rest
    | some n =>
      if gd n then n :: collectDomainConflicts gd rest else collectDomainConflicts gd rest

def checkDomainNamesDoc (gd : String → Bool) (doc : XElem) : Option (List String) :=
  match doc.find1 "WorkspaceDefinition" with
  | none => none
  | some wd =>
    match wd.find1 "Domains" with
    | none => none
    | some ds => some (collectDomainConflicts gd (ds.findall "Domain"))

def checkDomainNames (docs : List XElem) (gd : String → Bool) : Option (List String) :=
  match docs with
  | [] => some []
  | doc :: rest =>
    match checkDomainNamesDoc gd doc, checkDomainNames rest gd with
    | some l, some l' => some (l ++ l')
    | _, _ => none

/-- External destructive/import calls issued by a run. -/
inductive RunAction : Type where
  | deleteDataset (name : String)
  | deleteDomain (name : String)
  | importUpdmWorkspace
  | importLrsWorkspace
deriving Repr, DecidableEq

/-- The `errorMessage` argument of the `logError` call in `checkNames`:
the message of the raised `arcpy.ExecuteError`. -/
def checkNamesErrorMessage (datasets domains : List String) : String :=
  "Some items already exist in the workspace.\n[" ++
    String.intercalate ", " (datasets ++ domains) ++ "]"

/-- `checkNames(updmXml, lrsXml, workspace)`: with conflicts and
`overwriteOutput` on, `removeDatasets` then `removeDomains` delete each
conflicting item; with `overwriteOutput` off, a single consolidated
`ExecuteError` is raised.  Result: the trace of delete actions and the
outcome; `none` models the crash on malformed documents. -/
def checkNames (updmXml lrsXml : XElem) (g gd : String → Bool)
    (overwriteOutput : Bool) : Option (List RunAction × Except String Unit) :=
  match checkDatasetNames [updmXml, lrsXml] g, checkDomainNames [updmXml, lrsXml] gd with
  | some datasets, some domains =>
    if datasets.length > 0 ∨ domains.length > 0 then
      if overwriteOutput then
        some (datasets.map RunAction.deleteDataset ++ domains.map RunAction.deleteDomain, .ok ())
      else
        some ([], .error (checkNamesErrorMessage datasets domains))
    else some ([], .ok ())
  | _, _ => none

/-! ## Parameter accessors, validation and the run skeleton -/

/-- The spatial reference parameter object, reduced to the properties the
script reads (`XYTolerance`, `ZTolerance`, `metersPerUnit`). -/
structure SpatialReference : Type where
  xyTolerance : ℚ
  zTolerance : ℚ
  metersPerUnit : ℚ
deriving Repr, DecidableEq

/-- The tool's invocation parameters as read through
`arcpy.GetParameter`/`GetParameterAsText`.  Text parameters are strings
(`""` = unset); numeric and object parameters are `Option`s (`none` folds
the source's `is None` and `== ""` cases for non-text parameters). -/
structure Params : Type where
  outputGDB : String
  spatialReference : Option SpatialReference
  mUnits : String
  xyTolerance : Option ℚ
  zTolerance : Option ℚ
  eventRegistrationNetwork : String
  registerPipeSystem : Option Bool
deriving Repr, DecidableEq

/-- `eventRegistrationNetworkValues` — insertion-ordered dict. -/
def eventRegistrationNetworkValues : List (String × String) :=
  [("ENGINEERING", "ENGINEERING"), ("CONTINUOUS", "CONTINUOUS")]

def getMUnitsParam (p : Params) : String :=
  if p.mUnits = "" then "FEET" else p.mUnits

def getMUnitsParamAsText (p : Params) : String :=
  if p.mUnits = "" then "FEET" else p.mUnits

/-- `getXYToleranceParam`: an unset or zero parameter falls back to the
spatial reference's own `XYTolerance`; `none` models the `AttributeError`
when the spatial reference parameter is itself missing. -/
def getXYToleranceParam (p : Params) : Option ℚ :=
  match p.xyTolerance with
  | none => p.spatialReference.map SpatialReference.xyTolerance
  | some v =>
    if v = 0 then p.spatialReference.map SpatialReference.xyTolerance else some v

def getZToleranceParam (p : Params) : Option ℚ :=
  match p.zTolerance with
  | none => p.spatialReference.map SpatialReference.zTolerance
  | some v =>
    if v = 0 then p.spatialReference.map SpatialReference.zTolerance else some v

/-- `getEventRegistrationNetworkParamAsText`: a falsy (empty) value defaults
to `"ENGINEERING"`. -/
def getEventRegistrationNetworkParamAsText (p : Params) : String :=
  if p.eventRegistrationNetwork = "" then "ENGINEERING" else p.eventRegistrationNetwork

def getRegisterPipeSystemParam (p : Params) : Bool :=
  p.registerPipeSystem.getD false

/-- `validateInput`: each failed check calls `logError`, which raises
immediately, so the first failing check wins. -/
def validateInput (p : Params) : Except String Unit :=
  if p.outputGDB = "" then .error "Please provide an Output GDB."
  else
    match p.spatialReference with
    | none => .error "Please provide a Spatial Reference."
    | some _ =>
      if getMUnitsParamAsText p = "" then .error "Please provide a Measure Unit."
      else
        match getXYToleranceParam p with
        | none => .error "Please provide an XY Tolerance that is greater than 0."
        | some xy =>
          if xy ≤ 0 then .error "Please provide an XY Tolerance that is greater than 0."
          else
            match getZToleranceParam p with
            | none => .error "Please provide a Z Tolerance that is greater than 0."
            | some z =>
              if z ≤ 0 then .error "Please provide a Z Tolerance that is greater than 0."
              else
                let ev := getEventRegistrationNetworkParamAsText p
                if ev = "" then .error "Please provide an Event Measure Storage."
                else
                  match lookupTbl ev eventRegistrationNetworkValues with
                  | none => .error ("Event Measure Storage must be one of the following: " ++
                      String.intercalate ", " (eventRegistrationNetworkValues.map Prod.snd))
                  | some _ => .ok ()

/-- The `convertUnits(newXyTolerance * metersPerUnit, mUnits)` call made by
`setToleranceAndResolution` while `replaceSpatialReference` runs (before the
UPDM import); the surrounding tolerance/resolution writes into the spatial
reference fragment have no effect on the traced run. -/
def mToleranceCalc (p : Params) : Option (Except String ℚ) :=
  match p.spatialReference with
  | none => none
  | some sr =>
    match getXYToleranceParam p with
    | none => none
    | some xy => some (convertUnits (xy * sr.metersPerUnit) (some (getMUnitsParam p)) (some "Meters"))

/-- The orchestration skeleton of `start`: `validateInput`, then
`checkNames` (which may delete conflicting items when `overwriteOutput` is
on), then `createUpdm` — whose `replaceSpatialReference` step performs the
M-tolerance unit conversion before `populateUpdmWorkspace` imports the UPDM
document — then `createLrs`'s import.  The post-import patching steps
(metadata rewrite, indexes, domains, versioning) are modelled by the
dedicated functions above and issue no actions before the imports. -/
def start (p : Params) (updmXml lrsXml : XElem) (g gd : String → Bool)
    (overwriteOutput : Bool) : Option (List RunAction × Except String Unit) :=
  match validateInput p with
  | .error e => some ([], .error e)
  | .ok _ =>
    match checkNames updmXml lrsXml g gd overwriteOutput with
    | none => none
    | some (acts, .error e) => some (acts, .error e)
    | some (acts, .ok _) =>
      match mToleranceCalc p with
      | none => none
      | some (.error e) => some (acts, .error e)
      | some (.ok _) =>
        some (acts ++ [RunAction.importUpdmWorkspace, RunAction.importLrsWorkspace], .ok ())

/-! ## `replaceSpatialReference` (spatial-reference substitution)

The source builds a child→parent map over the whole document, snapshots the
list of `SpatialReference` elements in document (preorder) order, and for
each one removes it from its recorded parent and inserts the single shared
replacement fragment at the same child index.

Object identity is the `eid` field.  A recorded parent that is no longer in
the document (possible only when one `SpatialReference` is nested in
another, so the parent's subtree was already detached) is mutated invisibly
in Python; here the document is simply left unchanged.  A snapshot element
whose parent is not in the map (only the root) raises `KeyError`, modelled
by `none`. -/

mutual

/-- All elements of a tree in document (preorder) order — `element.iter()`. -/
def allElems : XElem → List XElem
  | .node i t a x cs => .node i t a x cs :: allElemsL cs

def allElemsL : List XElem → List XElem
  | [] => []
  | c :: cs => allElems c ++ allElemsL cs

end

mutual

/-- All element identities of a tree in document order. -/
def allIds : XElem → List Nat
  | .node i _ _ _ cs => i :: allIdsL cs

def allIdsL : List XElem → List Nat
  | [] => []
  | c :: cs => allIds c ++ allIdsL cs

end

mutual

/-- Identities of `SpatialReference` elements in document order —
`list(updmXml.iter("SpatialReference"))`. -/
def srIds : XElem → List Nat
  | .node i t _ _ cs => if t = "SpatialReference" then i :: srIdsL cs else srIdsL cs

def srIdsL : List XElem → List Nat
  | [] => []
  | c :: cs => srIds c ++ srIdsL cs

end

/-- Number of `SpatialReference` elements in the document. -/
def srCount (e : XElem) : Nat := (srIds e).length

/-- No `SpatialReference` element contains another one (true of the UPDM
workspace schema, where spatial references describe coordinate systems). -/
def noNestedSR (e : XElem) : Prop :=
  ∀ d ∈ allElems e, d.tag = "SpatialReference" → srIdsL d.children = []

instance (e : XElem) : Decidable (noNestedSR e) := by
  unfold noNestedSR
  exact List.decidableBAll _ _

/-- `{c: p for p in updmXml.iter() for c in p}` — the child→parent identity
map, as an association list in build order. -/
def parentPairs (e : XElem) : List (Nat × Nat) :=
  (allElems e).flatMap (fun p => p.children.map (fun c => (c.eid, p.eid)))

/-- `list(parent).index(x)` by object identity. -/
def idxOfId (cid : Nat) : List XElem → Option Nat
  | [] => none
  | c :: cs => if c.eid = cid then some 0 else (idxOfId cid cs).map (· + 1)

mutual

/-- One replacement applied to the current document: at the (unique) node
with identity `p`, compute the index of child `sr`, remove it, and insert
`new` there (`index`/`remove`/`insert` of the source loop body).  `none`
models the `ValueError` when `sr` is not among the children of a present
`p`; a document without `p` is returned unchanged (the recorded parent is
detached, its mutation invisible). -/
def rc (p sr : Nat) (new : XElem) : XElem → Option XElem
  | .node i t a x cs =>
    if i = p then
      match idxOfId sr cs with
      | some j => some (.node i t a x (pyInsert j new (cs.eraseIdx j)))
      | none => none
    else
      match rcL p sr new cs with
      | some cs' => some (.node i t a x cs')
      | none => none

def rcL (p sr : Nat) (new : XElem) : List XElem → Option (List XElem)
  | [] => some []
  | c :: cs =>
    match rc p sr new c, rcL p sr new cs with
    | some c', some cs' => some (c' :: cs')
    | _, _ => none

end

/-- One iteration of the replacement loop for the snapshot element `sr`. -/
def stepSR (pm : List (Nat × Nat)) (new : XElem) (acc : Option XElem) (sr : Nat) :
    Option XElem :=
  match acc with
  | none => none
  | some d =>
    match lookupTbl sr pm with
    | none => none
    | some p => rc p sr new d

/-- `replaceSpatialReference(updmXml)` with the generated fragment
`newSpatialReferenceXml`: fold the loop over the snapshot list. -/
def replaceSpatialReference (newSpatialReferenceXml : XElem) (updmXml : XElem) : Option XElem :=
  (srIds updmXml).foldl (stepSR (parentPairs updmXml) newSpatialReferenceXml) (some updmXml)

mutual

/-- In-place structural replacement: every `SpatialReference` element,
wherever it occurs, replaced by the fragment at the same position. -/
def replaceMapSR (new : XElem) : XElem → XElem
  | .node i t a x cs =>
    if t = "SpatialReference" then new else .node i t a x (replaceMapSRL new cs)

def replaceMapSRL (new : XElem) : List XElem → List XElem
  | [] => []
  | c :: cs => replaceMapSR new c :: replaceMapSRL new cs

end

mutual

/-- Partial replacement: only the `SpatialReference` elements whose identity
is in `S` are replaced (loop invariant of the main proof). -/
def repIn (new : XElem) (S : List Nat) : XElem → XElem
  | .node i t a x cs =>
    if t = "SpatialReference" ∧ i ∈ S then new else .node i t a x (repInL new S cs)

def repInL (new : XElem) (S : List Nat) : List XElem → List XElem
  | [] => []
  | c :: cs => repIn new S c :: repInL new S cs

end

mutual

/-- The document with every `SpatialReference` subtree dropped: the relative
order of all other elements. -/
def stripSR : XElem → XElem
  | .node i t a x cs => .node i t a x (stripSRL cs)

def stripSRL : List XElem → List XElem
  | [] => []
  | c :: cs =>
    if c.tag = "SpatialReference" then stripSRL cs else stripSR c :: stripSRL cs

end

/-! ## The embedded metadata blobs

The `Metadata` field of the single `Lrs_Metadata` record is a base64-encoded
XML document embedded in the module's LRS workspace strings (one without and
one with the `P_PipeSystem` variant).  The two values below transcribe those
documents: full element structure in document order, with `eid`s numbered in
preorder (modelling distinct parsed-object identities).  Attributes not read
or written by the script's metadata logic, and element text, are elided (the
verified properties and the embedded functions only touch the kept
attributes). -/

def lrsMetadataBlob : XElem :=
  .node 0 "Lrs" [] none
    [
    .node 1 "Networks" [] none
      [
      .node 2 "Network" [("Name", "P_ContinuousNetwork"), ("IsDerived", "false"), ("DerivedFromNetwork", "-1")] none
        [
        .node 3 "RouteFieldNames" [] none
          [
          .node 4 "NetworkFieldName" [] none []
          ],
        .node 5 "EventTables" [] none [],
        .node 6 "IntersectionClasses" [] none [],
        .node 7 "UnitsOfMeasure" [] none [],
        .node 8 "TimeZoneOffset" [] none [],
        .node 9 "TimeZoneId" [] none [],
        .node 10 "RoutePriorityRules" [] none []
        ],
      .node 11 "Network" [("Name", "P_EngineeringNetwork"), ("IsDerived", "false"), ("DerivedFromNetwork", "-1")] none
        [
        .node 12 "RouteFieldNames" [] none
          [
          .node 13 "NetworkFieldName" [] none []
          ],
        .node 14 "EventTables" [] none
          [
          .node 15 "EventTable" [("Name", "P_Anomaly"), ("RouteIdFieldName", "ENGROUTEID"), ("ToRouteIdFieldName", ""), ("RouteNameFieldName", "ENGROUTENAME"), ("ToRouteNameFieldName", ""), ("FromMeasureFieldName", "ENGM"), ("ToMeasureFieldName", ""), ("IsPointEvent", "true"), ("FromReferentMethodFieldName", "REFMETHOD"), ("ToReferentMethodFieldName", ""), ("StoreFieldsFromDerivedNetworkWithEventRecords", "false"), ("DerivedRouteIdFieldName", ""), ("DerivedRouteNameFieldName", ""), ("DerivedFromMeasureFieldName", ""), ("DerivedToMeasureFieldName", "")] none [],
          .node 16 "EventTable" [("Name", "P_AnomalyGroup"), ("RouteIdFieldName", "ENGROUTEID"), ("ToRouteIdFieldName", ""), ("RouteNameFieldName", "ENGROUTENAME"), ("ToRouteNameFieldName", ""), ("FromMeasureFieldName", "ENGM"), ("ToMeasureFieldName", ""), ("IsPointEvent", "true"), ("FromReferentMethodFieldName", "REFMETHOD"), ("ToReferentMethodFieldName", ""), ("StoreFieldsFromDerivedNetworkWithEventRecords", "false"), ("DerivedRouteIdFieldName", ""), ("DerivedRouteNameFieldName", ""), ("DerivedFromMeasureFieldName", ""), ("DerivedToMeasureFieldName", "")] none [],
          .node 17 "EventTable" [("Name", "P_CenterlineAccuracy"), ("RouteIdFieldName", "ENGROUTEID"), ("ToRouteIdFieldName", "ENGTOROUTEID"), ("RouteNameFieldName", "ENGROUTENAME"), ("ToRouteNameFieldName", "ENGTOROUTENAME"), ("FromMeasureFieldName", "ENGFROMM"), ("ToMeasureFieldName", "ENGTOM"), ("IsPointEvent", "false"), ("FromReferentMethodFieldName", "FROMREFMETHOD"), ("ToReferentMethodFieldName", "TOREFMETHOD"), ("StoreFieldsFromDerivedNetworkWithEventRecords", "false"), ("DerivedRouteIdFieldName", ""), ("DerivedRouteNameFieldName", ""), ("DerivedFromMeasureFieldName", ""), ("DerivedToMeasureFieldName", "")] none [],
          .node 18 "EventTable" [("Name", "P_ConsequenceSegment"), ("RouteIdFieldName", "ENGROUTEID"), ("ToRouteIdFieldName", "ENGTOROUTEID"), ("RouteNameFieldName", "ENGROUTENAME"), ("ToRouteNameFieldName", "ENGTOROUTENAME"), ("FromMeasureFieldName", "ENGFROMM"), ("ToMeasureFieldName", "ENGTOM"), ("IsPointEvent", "false"), ("FromReferentMethodFieldName", "FROMREFMETHOD"), ("ToReferentMethodFieldName", "TOREFMETHOD"), ("StoreFieldsFromDerivedNetworkWithEventRecords", "false")] none [],
          .node 19 "EventTable" [("Name", "P_CouldAffectSegment"), ("RouteIdFieldName", "ENGROUTEID"), ("ToRouteIdFieldName", "ENGTOROUTEID"), ("RouteNameFieldName", "ENGROUTENAME"), ("ToRouteNameFieldName", "ENGTOROUTENAME"), ("FromMeasureFieldName", "ENGFROMM"), ("ToMeasureFieldName", "ENGTOM"), ("IsPointEvent", "false"), ("FromReferentMethodFieldName", "FROMREFMETHOD"), ("ToReferentMethodFieldName", "TOREFMETHOD"), ("StoreFieldsFromDerivedNetworkWithEventRecords", "false")] none [],
          .node 20 "EventTable" [("Name", "P_DASurveyReadings"), ("RouteIdFieldName", "ENGROUTEID"), ("ToRouteIdFieldName", ""), ("RouteNameFieldName", "ENGROUTENAME"), ("ToRouteNameFieldName", ""), ("FromMeasureFieldName", "ENGM"), ("ToMeasureFieldName", ""), ("IsPointEvent", "true"), ("FromReferentMethodFieldName", "REFMETHOD"), ("ToReferentMethodFieldName", ""), ("StoreFieldsFromDerivedNetworkWithEventRecords", "false"), ("DerivedRouteIdFieldName", ""), ("DerivedRouteNameFieldName", ""), ("DerivedFromMeasureFieldName", ""), ("DerivedToMeasureFieldName", "")] none [],
          .node 21 "EventTable" [("Name", "P_DocumentPoint"), ("RouteIdFieldName", "ENGROUTEID"), ("ToRouteIdFieldName", ""), ("RouteNameFieldName", "ENGROUTENAME"), ("ToRouteNameFieldName", ""), ("FromMeasureFieldName", "ENGM"), ("ToMeasureFieldName", ""), ("IsPointEvent", "true"), ("FromReferentMethodFieldName", "REFMETHOD"), ("ToReferentMethodFieldName", ""), ("StoreFieldsFromDerivedNetworkWithEventRecords", "false"), ("DerivedRouteIdFieldName", ""), ("DerivedRouteNameFieldName", ""), ("DerivedFromMeasureFieldName", ""), ("DerivedToMeasureFieldName", "")] none [],
          .node 22 "EventTable" [("Name", "P_DOTClass"), ("RouteIdFieldName", "ENGROUTEID"), ("ToRouteIdFieldName", "ENGTOROUTEID"), ("RouteNameFieldName", "ENGROUTENAME"), ("ToRouteNameFieldName", "ENGTOROUTENAME"), ("FromMeasureFieldName", "ENGFROMM"), ("ToMeasureFieldName", "ENGTOM"), ("IsPointEvent", "false"), ("FromReferentMethodFieldName", "FROMREFMETHOD"), ("ToReferentMethodFieldName", "TOREFMETHOD"), ("StoreFieldsFromDerivedNetworkWithEventRecords", "false")] none [],
          .node 23 "EventTable" [("Name", "P_Elevation"), ("RouteIdFieldName", "ENGROUTEID"), ("ToRouteIdFieldName", ""), ("RouteNameFieldName", "ENGROUTENAME"), ("ToRouteNameFieldName", ""), ("FromMeasureFieldName", "ENGM"), ("ToMeasureFieldName", ""), ("IsPointEvent", "true"), ("FromReferentMethodFieldName", "REFMETHOD"), ("ToReferentMethodFieldName", ""), ("StoreFieldsFromDerivedNetworkWithEventRecords", "false"), ("DerivedRouteIdFieldName", ""), ("DerivedRouteNameFieldName", ""), ("DerivedFromMeasureFieldName", ""), ("DerivedToMeasureFieldName", "")] none [],
          .node 24 "EventTable" [("Name", "P_ILIGroundRefMarkers"), ("RouteIdFieldName", "ENGROUTEID"), ("ToRouteIdFieldName", ""), ("RouteNameFieldName", "ENGROUTENAME"), ("ToRouteNameFieldName", ""), ("FromMeasureFieldName", "ENGM"), ("ToMeasureFieldName", ""), ("IsPointEvent", "true"), ("FromReferentMethodFieldName", "REFMETHOD"), ("ToReferentMethodFieldName", ""), ("StoreFieldsFromDerivedNetworkWithEventRecords", "false"), ("DerivedRouteIdFieldName", ""), ("DerivedRouteNameFieldName", ""), ("DerivedFromMeasureFieldName", ""), ("DerivedToMeasureFieldName", "")] none [],
          .node 25 "EventTable" [("Name", "P_ILIInspectionRange"), ("RouteIdFieldName", "ENGROUTEID"), ("ToRouteIdFieldName", "ENGTOROUTEID"), ("RouteNameFieldName", "ENGROUTENAME"), ("ToRouteNameFieldName", "ENGTOROUTENAME"), ("FromMeasureFieldName", "ENGFROMM"), ("ToMeasureFieldName", "ENGTOM"), ("IsPointEvent", "false"), ("FromReferentMethodFieldName", "FROMREFMETHOD"), ("ToReferentMethodFieldName", "TOREFMETHOD"), ("StoreFieldsFromDerivedNetworkWithEventRecords", "false"), ("DerivedRouteIdFieldName", ""), ("DerivedRouteNameFieldName", ""), ("DerivedFromMeasureFieldName", ""), ("DerivedToMeasureFieldName", "")] none [],
          .node 26 "EventTable" [("Name", "P_ILISurveyGroup"), ("RouteIdFieldName", "ENGROUTEID"), ("ToRouteIdFieldName", ""), ("RouteNameFieldName", "ENGROUTENAME"), ("ToRouteNameFieldName", ""), ("FromMeasureFieldName", "ENGM"), ("ToMeasureFieldName", ""), ("IsPointEvent", "true"), ("FromReferentMethodFieldName", "REFMETHOD"), ("ToReferentMethodFieldName", ""), ("StoreFieldsFromDerivedNetworkWithEventRecords", "false"), ("DerivedRouteIdFieldName", ""), ("DerivedRouteNameFieldName", ""), ("DerivedFromMeasureFieldName", ""), ("DerivedToMeasureFieldName", "")] none [],
          .node 27 "EventTable" [("Name", "P_ILISurveyReadings"), ("RouteIdFieldName", "ENGROUTEID"), ("ToRouteIdFieldName", ""), ("RouteNameFieldName", "ENGROUTENAME"), ("ToRouteNameFieldName", ""), ("FromMeasureFieldName", "ENGM"), ("ToMeasureFieldName", ""), ("IsPointEvent", "true"), ("FromReferentMethodFieldName", "REFMETHOD"), ("ToReferentMethodFieldName", ""), ("StoreFieldsFromDerivedNetworkWithEventRecords", "false"), ("DerivedRouteIdFieldName", ""), ("DerivedRouteNameFieldName", ""), ("DerivedFromMeasureFieldName", ""), ("DerivedToMeasureFieldName", "")] none [],
          .node 28 "EventTable" [("Name", "P_InlineInspection"), ("RouteIdFieldName", "ENGROUTEID"), ("ToRouteIdFieldName", "ENGTOROUTEID"), ("RouteNameFieldName", "ENGROUTENAME"), ("ToRouteNameFieldName", "ENGTOROUTENAME"), ("FromMeasureFieldName", "ENGFROMM"), ("ToMeasureFieldName", "ENGTOM"), ("IsPointEvent", "false"), ("FromReferentMethodFieldName", "FROMREFMETHOD"), ("ToReferentMethodFieldName", "TOREFMETHOD"), ("StoreFieldsFromDerivedNetworkWithEventRecords", "false"), ("DerivedRouteIdFieldName", ""), ("DerivedRouteNameFieldName", ""), ("DerivedFromMeasureFieldName", ""), ("DerivedToMeasureFieldName", "")] none [],
          .node 29 "EventTable" [("Name", "P_InspectionNote"), ("RouteIdFieldName", "ENGROUTEID"), ("ToRouteIdFieldName", ""), ("RouteNameFieldName", "ENGROUTENAME"), ("ToRouteNameFieldName", ""), ("FromMeasureFieldName", "ENGM"), ("ToMeasureFieldName", ""), ("IsPointEvent", "true"), ("FromReferentMethodFieldName", "REFMETHOD"), ("ToReferentMethodFieldName", ""), ("StoreFieldsFromDerivedNetworkWithEventRecords", "false"), ("DerivedRouteIdFieldName", ""), ("DerivedRouteNameFieldName", ""), ("DerivedFromMeasureFieldName", ""), ("DerivedToMeasureFieldName", "")] none [],
          .node 30 "EventTable" [("Name", "P_InspectionRange"), ("RouteIdFieldName", "ENGROUTEID"), ("ToRouteIdFieldName", "ENGTOROUTEID"), ("RouteNameFieldName", "ENGROUTENAME"), ("ToRouteNameFieldName", "ENGTOROUTENAME"), ("FromMeasureFieldName", "ENGFROMM"), ("ToMeasureFieldName", "ENGTOM"), ("IsPointEvent", "false"), ("FromReferentMethodFieldName", "FROMREFMETHOD"), ("ToReferentMethodFieldName", "TOREFMETHOD"), ("StoreFieldsFromDerivedNetworkWithEventRecords", "false"), ("DerivedRouteIdFieldName", ""), ("DerivedRouteNameFieldName", ""), ("DerivedFromMeasureFieldName", ""), ("DerivedToMeasureFieldName", "")] none [],
          .node 31 "EventTable" [("Name", "P_MAOPCalcRange"), ("RouteIdFieldName", "ENGROUTEID"), ("ToRouteIdFieldName", "ENGTOROUTEID"), ("RouteNameFieldName", "ENGROUTENAME"), ("ToRouteNameFieldName", "ENGTOROUTENAME"), ("FromMeasureFieldName", "ENGFROMM"), ("ToMeasureFieldName", "ENGTOM"), ("IsPointEvent", "false"), ("FromReferentMethodFieldName", "FROMREFMETHOD"), ("ToReferentMethodFieldName", "TOREFMETHOD"), ("StoreFieldsFromDerivedNetworkWithEventRecords", "false"), ("DerivedRouteIdFieldName", ""), ("DerivedRouteNameFieldName", ""), ("DerivedFromMeasureFieldName", ""), ("DerivedToMeasureFieldName", "")] none [],
          .node 32 "EventTable" [("Name", "P_OperatingPressureRange"), ("RouteIdFieldName", "ENGROUTEID"), ("ToRouteIdFieldName", "ENGTOROUTEID"), ("RouteNameFieldName", "ENGROUTENAME"), ("ToRouteNameFieldName", "ENGTOROUTENAME"), ("FromMeasureFieldName", "ENGFROMM"), ("ToMeasureFieldName", "ENGTOM"), ("IsPointEvent", "false"), ("FromReferentMethodFieldName", "FROMREFMETHOD"), ("ToReferentMethodFieldName", "TOREFMETHOD"), ("StoreFieldsFromDerivedNetworkWithEventRecords", "false"), ("DerivedRouteIdFieldName", ""), ("DerivedRouteNameFieldName", ""), ("DerivedFromMeasureFieldName", ""), ("DerivedToMeasureFieldName", "")] none [],
          .node 33 "EventTable" [("Name", "P_PipeCrossing"), ("RouteIdFieldName", "ENGROUTEID"), ("ToRouteIdFieldName", "ENGTOROUTEID"), ("RouteNameFieldName", "ENGROUTENAME"), ("ToRouteNameFieldName", "ENGTOROUTENAME"), ("FromMeasureFieldName", "ENGFROMM"), ("ToMeasureFieldName", "ENGTOM"), ("IsPointEvent", "false"), ("FromReferentMethodFieldName", "FROMREFMETHOD"), ("ToReferentMethodFieldName", "TOREFMETHOD"), ("StoreFieldsFromDerivedNetworkWithEventRecords", "false"), ("DerivedRouteIdFieldName", ""), ("DerivedRouteNameFieldName", ""), ("DerivedFromMeasureFieldName", ""), ("DerivedToMeasureFieldName", "")] none [],
          .node 34 "EventTable" [("Name", "P_PipeExposure"), ("RouteIdFieldName", "ENGROUTEID"), ("ToRouteIdFieldName", "ENGTOROUTEID"), ("RouteNameFieldName", "ENGROUTENAME"), ("ToRouteNameFieldName", "ENGTOROUTENAME"), ("FromMeasureFieldName", "ENGFROMM"), ("ToMeasureFieldName", "ENGTOM"), ("IsPointEvent", "false"), ("FromReferentMethodFieldName", "FROMREFMETHOD"), ("ToReferentMethodFieldName", "TOREFMETHOD"), ("StoreFieldsFromDerivedNetworkWithEventRecords", "false"), ("DerivedRouteIdFieldName", ""), ("DerivedRouteNameFieldName", ""), ("DerivedFromMeasureFieldName", ""), ("DerivedToMeasureFieldName", "")] none [],
          .node 35 "EventTable" [("Name", "P_TestPressureRange"), ("RouteIdFieldName", "ENGROUTEID"), ("ToRouteIdFieldName", "ENGTOROUTEID"), ("RouteNameFieldName", "ENGROUTENAME"), ("ToRouteNameFieldName", "ENGTOROUTENAME"), ("FromMeasureFieldName", "ENGFROMM"), ("ToMeasureFieldName", "ENGTOM"), ("IsPointEvent", "false"), ("FromReferentMethodFieldName", "FROMREFMETHOD"), ("ToReferentMethodFieldName", "TOREFMETHOD"), ("StoreFieldsFromDerivedNetworkWithEventRecords", "false"), ("DerivedRouteIdFieldName", ""), ("DerivedRouteNameFieldName", ""), ("DerivedFromMeasureFieldName", ""), ("DerivedToMeasureFieldName", "")] none []
          ],
        .node 36 "IntersectionClasses" [] none [],
        .node 37 "UnitsOfMeasure" [] none [],
        .node 38 "TimeZoneOffset" [] none [],
        .node 39 "TimeZoneId" [] none [],
        .node 40 "RoutePriorityRules" [] none []
        ]
      ],
    .node 41 "FieldNames" [] none
      [
      .node 42 "Route" [] none [],
      .node 43 "CenterlineSequence" [] none [],
      .node 44 "CalibrationPoint" [] none [],
      .node 45 "Centerline" [] none [],
      .node 46 "Redline" [] none []
      ]
    ]

def lrsMetadataBlobPipeSystem : XElem :=
  .node 0 "Lrs" [] none
    [
    .node 1 "Networks" [] none
      [
      .node 2 "Network" [("Name", "P_ContinuousNetwork"), ("IsDerived", "false"), ("DerivedFromNetwork", "-1")] none
        [
        .node 3 "RouteFieldNames" [] none
          [
          .node 4 "NetworkFieldName" [] none []
          ],
        .node 5 "EventTables" [] none [],
        .node 6 "IntersectionClasses" [] none [],
        .node 7 "UnitsOfMeasure" [] none [],
        .node 8 "TimeZoneOffset" [] none [],
        .node 9 "TimeZoneId" [] none [],
        .node 10 "RoutePriorityRules" [] none []
        ],
      .node 11 "Network" [("Name", "P_EngineeringNetwork"), ("IsDerived", "false"), ("DerivedFromNetwork", "-1")] none
        [
        .node 12 "RouteFieldNames" [] none
          [
          .node 13 "NetworkFieldName" [] none []
          ],
        .node 14 "EventTables" [] none
          [
          .node 15 "EventTable" [("Name", "P_Anomaly"), ("RouteIdFieldName", "ENGROUTEID"), ("ToRouteIdFieldName", ""), ("RouteNameFieldName", "ENGROUTENAME"), ("ToRouteNameFieldName", ""), ("FromMeasureFieldName", "ENGM"), ("ToMeasureFieldName", ""), ("IsPointEvent", "true"), ("FromReferentMethodFieldName", "REFMETHOD"), ("ToReferentMethodFieldName", ""), ("StoreFieldsFromDerivedNetworkWithEventRecords", "false"), ("DerivedRouteIdFieldName", ""), ("DerivedRouteNameFieldName", ""), ("DerivedFromMeasureFieldName", ""), ("DerivedToMeasureFieldName", "")] none [],
          .node 16 "EventTable" [("Name", "P_AnomalyGroup"), ("RouteIdFieldName", "ENGROUTEID"), ("ToRouteIdFieldName", ""), ("RouteNameFieldName", "ENGROUTENAME"), ("ToRouteNameFieldName", ""), ("FromMeasureFieldName", "ENGM"), ("ToMeasureFieldName", ""), ("IsPointEvent", "true"), ("FromReferentMethodFieldName", "REFMETHOD"), ("ToReferentMethodFieldName", ""), ("StoreFieldsFromDerivedNetworkWithEventRecords", "false"), ("DerivedRouteIdFieldName", ""), ("DerivedRouteNameFieldName", ""), ("DerivedFromMeasureFieldName", ""), ("DerivedToMeasureFieldName", "")] none [],
          .node 17 "EventTable" [("Name", "P_CenterlineAccuracy"), ("RouteIdFieldName", "ENGROUTEID"), ("ToRouteIdFieldName", "ENGTOROUTEID"), ("RouteNameFieldName", "ENGROUTENAME"), ("ToRouteNameFieldName", "ENGTOROUTENAME"), ("FromMeasureFieldName", "ENGFROMM"), ("ToMeasureFieldName", "ENGTOM"), ("IsPointEvent", "false"), ("FromReferentMethodFieldName", "FROMREFMETHOD"), ("ToReferentMethodFieldName", "TOREFMETHOD"), ("StoreFieldsFromDerivedNetworkWithEventRecords", "false"), ("DerivedRouteIdFieldName", ""), ("DerivedRouteNameFieldName", ""), ("DerivedFromMeasureFieldName", ""), ("DerivedToMeasureFieldName", "")] none [],
          .node 18 "EventTable" [("Name", "P_ConsequenceSegment"), ("RouteIdFieldName", "ENGROUTEID"), ("ToRouteIdFieldName", "ENGTOROUTEID"), ("RouteNameFieldName", "ENGROUTENAME"), ("ToRouteNameFieldName", "ENGTOROUTENAME"), ("FromMeasureFieldName", "ENGFROMM"), ("ToMeasureFieldName", "ENGTOM"), ("IsPointEvent", "false"), ("FromReferentMethodFieldName", "FROMREFMETHOD"), ("ToReferentMethodFieldName", "TOREFMETHOD"), ("StoreFieldsFromDerivedNetworkWithEventRecords", "false")] none [],
          .node 19 "EventTable" [("Name", "P_CouldAffectSegment"), ("RouteIdFieldName", "ENGROUTEID"), ("ToRouteIdFieldName", "ENGTOROUTEID"), ("RouteNameFieldName", "ENGROUTENAME"), ("ToRouteNameFieldName", "ENGTOROUTENAME"), ("FromMeasureFieldName", "ENGFROMM"), ("ToMeasureFieldName", "ENGTOM"), ("IsPointEvent", "false"), ("FromReferentMethodFieldName", "FROMREFMETHOD"), ("ToReferentMethodFieldName", "TOREFMETHOD"), ("StoreFieldsFromDerivedNetworkWithEventRecords", "false")] none [],
          .node 20 "EventTable" [("Name", "P_DASurveyReadings"), ("RouteIdFieldName", "ENGROUTEID"), ("ToRouteIdFieldName", ""), ("RouteNameFieldName", "ENGROUTENAME"), ("ToRouteNameFieldName", ""), ("FromMeasureFieldName", "ENGM"), ("ToMeasureFieldName", ""), ("IsPointEvent", "true"), ("FromReferentMethodFieldName", "REFMETHOD"), ("ToReferentMethodFieldName", ""), ("StoreFieldsFromDerivedNetworkWithEventRecords", "false"), ("DerivedRouteIdFieldName", ""), ("DerivedRouteNameFieldName", ""), ("DerivedFromMeasureFieldName", ""), ("DerivedToMeasureFieldName", "")] none [],
          .node 21 "EventTable" [("Name", "P_DocumentPoint"), ("RouteIdFieldName", "ENGROUTEID"), ("ToRouteIdFieldName", ""), ("RouteNameFieldName", "ENGROUTENAME"), ("ToRouteNameFieldName", ""), ("FromMeasureFieldName", "ENGM"), ("ToMeasureFieldName", ""), ("IsPointEvent", "true"), ("FromReferentMethodFieldName", "REFMETHOD"), ("ToReferentMethodFieldName", ""), ("StoreFieldsFromDerivedNetworkWithEventRecords", "false"), ("DerivedRouteIdFieldName", ""), ("DerivedRouteNameFieldName", ""), ("DerivedFromMeasureFieldName", ""), ("DerivedToMeasureFieldName", "")] none [],
          .node 22 "EventTable" [("Name", "P_DOTClass"), ("RouteIdFieldName", "ENGROUTEID"), ("ToRouteIdFieldName", "ENGTOROUTEID"), ("RouteNameFieldName", "ENGROUTENAME"), ("ToRouteNameFieldName", "ENGTOROUTENAME"), ("FromMeasureFieldName", "ENGFROMM"), ("ToMeasureFieldName", "ENGTOM"), ("IsPointEvent", "false"), ("FromReferentMethodFieldName", "FROMREFMETHOD"), ("ToReferentMethodFieldName", "TOREFMETHOD"), ("StoreFieldsFromDerivedNetworkWithEventRecords", "false")] none [],
          .node 23 "EventTable" [("Name", "P_Elevation"), ("RouteIdFieldName", "ENGROUTEID"), ("ToRouteIdFieldName", ""), ("RouteNameFieldName", "ENGROUTENAME"), ("ToRouteNameFieldName", ""), ("FromMeasureFieldName", "ENGM"), ("ToMeasureFieldName", ""), ("IsPointEvent", "true"), ("FromReferentMethodFieldName", "REFMETHOD"), ("ToReferentMethodFieldName", ""), ("StoreFieldsFromDerivedNetworkWithEventRecords", "false"), ("DerivedRouteIdFieldName", ""), ("DerivedRouteNameFieldName", ""), ("DerivedFromMeasureFieldName", ""), ("DerivedToMeasureFieldName", "")] none [],
          .node 24 "EventTable" [("Name", "P_ILIGroundRefMarkers"), ("RouteIdFieldName", "ENGROUTEID"), ("ToRouteIdFieldName", ""), ("RouteNameFieldName", "ENGROUTENAME"), ("ToRouteNameFieldName", ""), ("FromMeasureFieldName", "ENGM"), ("ToMeasureFieldName", ""), ("IsPointEvent", "true"), ("FromReferentMethodFieldName", "REFMETHOD"), ("ToReferentMethodFieldName", ""), ("StoreFieldsFromDerivedNetworkWithEventRecords", "false"), ("DerivedRouteIdFieldName", ""), ("DerivedRouteNameFieldName", ""), ("DerivedFromMeasureFieldName", ""), ("DerivedToMeasureFieldName", "")] none [],
          .node 25 "EventTable" [("Name", "P_ILIInspectionRange"), ("RouteIdFieldName", "ENGROUTEID"), ("ToRouteIdFieldName", "ENGTOROUTEID"), ("RouteNameFieldName", "ENGROUTENAME"), ("ToRouteNameFieldName", "ENGTOROUTENAME"), ("FromMeasureFieldName", "ENGFROMM"), ("ToMeasureFieldName", "ENGTOM"), ("IsPointEvent", "false"), ("FromReferentMethodFieldName", "FROMREFMETHOD"), ("ToReferentMethodFieldName", "TOREFMETHOD"), ("StoreFieldsFromDerivedNetworkWithEventRecords", "false"), ("DerivedRouteIdFieldName", ""), ("DerivedRouteNameFieldName", ""), ("DerivedFromMeasureFieldName", ""), ("DerivedToMeasureFieldName", "")] none [],
          .node 26 "EventTable" [("Name", "P_ILISurveyGroup"), ("RouteIdFieldName", "ENGROUTEID"), ("ToRouteIdFieldName", ""), ("RouteNameFieldName", "ENGROUTENAME"), ("ToRouteNameFieldName", ""), ("FromMeasureFieldName", "ENGM"), ("ToMeasureFieldName", ""), ("IsPointEvent", "true"), ("FromReferentMethodFieldName", "REFMETHOD"), ("ToReferentMethodFieldName", ""), ("StoreFieldsFromDerivedNetworkWithEventRecords", "false"), ("DerivedRouteIdFieldName", ""), ("DerivedRouteNameFieldName", ""), ("DerivedFromMeasureFieldName", ""), ("DerivedToMeasureFieldName", "")] none [],
          .node 27 "EventTable" [("Name", "P_ILISurveyReadings"), ("RouteIdFieldName", "ENGROUTEID"), ("ToRouteIdFieldName", ""), ("RouteNameFieldName", "ENGROUTENAME"), ("ToRouteNameFieldName", ""), ("FromMeasureFieldName", "ENGM"), ("ToMeasureFieldName", ""), ("IsPointEvent", "true"), ("FromReferentMethodFieldName", "REFMETHOD"), ("ToReferentMethodFieldName", ""), ("StoreFieldsFromDerivedNetworkWithEventRecords", "false"), ("DerivedRouteIdFieldName", ""), ("DerivedRouteNameFieldName", ""), ("DerivedFromMeasureFieldName", ""), ("DerivedToMeasureFieldName", "")] none [],
          .node 28 "EventTable" [("Name", "P_InlineInspection"), ("RouteIdFieldName", "ENGROUTEID"), ("ToRouteIdFieldName", "ENGTOROUTEID"), ("RouteNameFieldName", "ENGROUTENAME"), ("ToRouteNameFieldName", "ENGTOROUTENAME"), ("FromMeasureFieldName", "ENGFROMM"), ("ToMeasureFieldName", "ENGTOM"), ("IsPointEvent", "false"), ("FromReferentMethodFieldName", "FROMREFMETHOD"), ("ToReferentMethodFieldName", "TOREFMETHOD"), ("StoreFieldsFromDerivedNetworkWithEventRecords", "false"), ("DerivedRouteIdFieldName", ""), ("DerivedRouteNameFieldName", ""), ("DerivedFromMeasureFieldName", ""), ("DerivedToMeasureFieldName", "")] none [],
          .node 29 "EventTable" [("Name", "P_InspectionNote"), ("RouteIdFieldName", "ENGROUTEID"), ("ToRouteIdFieldName", ""), ("RouteNameFieldName", "ENGROUTENAME"), ("ToRouteNameFieldName", ""), ("FromMeasureFieldName", "ENGM"), ("ToMeasureFieldName", ""), ("IsPointEvent", "true"), ("FromReferentMethodFieldName", "REFMETHOD"), ("ToReferentMethodFieldName", ""), ("StoreFieldsFromDerivedNetworkWithEventRecords", "false"), ("DerivedRouteIdFieldName", ""), ("DerivedRouteNameFieldName", ""), ("DerivedFromMeasureFieldName", ""), ("DerivedToMeasureFieldName", "")] none [],
          .node 30 "EventTable" [("Name", "P_InspectionRange"), ("RouteIdFieldName", "ENGROUTEID"), ("ToRouteIdFieldName", "ENGTOROUTEID"), ("RouteNameFieldName", "ENGROUTENAME"), ("ToRouteNameFieldName", "ENGTOROUTENAME"), ("FromMeasureFieldName", "ENGFROMM"), ("ToMeasureFieldName", "ENGTOM"), ("IsPointEvent", "false"), ("FromReferentMethodFieldName", "FROMREFMETHOD"), ("ToReferentMethodFieldName", "TOREFMETHOD"), ("StoreFieldsFromDerivedNetworkWithEventRecords", "false"), ("DerivedRouteIdFieldName", ""), ("DerivedRouteNameFieldName", ""), ("DerivedFromMeasureFieldName", ""), ("DerivedToMeasureFieldName", "")] none [],
          .node 31 "EventTable" [("Name", "P_MAOPCalcRange"), ("RouteIdFieldName", "ENGROUTEID"), ("ToRouteIdFieldName", "ENGTOROUTEID"), ("RouteNameFieldName", "ENGROUTENAME"), ("ToRouteNameFieldName", "ENGTOROUTENAME"), ("FromMeasureFieldName", "ENGFROMM"), ("ToMeasureFieldName", "ENGTOM"), ("IsPointEvent", "false"), ("FromReferentMethodFieldName", "FROMREFMETHOD"), ("ToReferentMethodFieldName", "TOREFMETHOD"), ("StoreFieldsFromDerivedNetworkWithEventRecords", "false"), ("DerivedRouteIdFieldName", ""), ("DerivedRouteNameFieldName", ""), ("DerivedFromMeasureFieldName", ""), ("DerivedToMeasureFieldName", "")] none [],
          .node 32 "EventTable" [("Name", "P_OperatingPressureRange"), ("RouteIdFieldName", "ENGROUTEID"), ("ToRouteIdFieldName", "ENGTOROUTEID"), ("RouteNameFieldName", "ENGROUTENAME"), ("ToRouteNameFieldName", "ENGTOROUTENAME"), ("FromMeasureFieldName", "ENGFROMM"), ("ToMeasureFieldName", "ENGTOM"), ("IsPointEvent", "false"), ("FromReferentMethodFieldName", "FROMREFMETHOD"), ("ToReferentMethodFieldName", "TOREFMETHOD"), ("StoreFieldsFromDerivedNetworkWithEventRecords", "false"), ("DerivedRouteIdFieldName", ""), ("DerivedRouteNameFieldName", ""), ("DerivedFromMeasureFieldName", ""), ("DerivedToMeasureFieldName", "")] none [],
          .node 33 "EventTable" [("Name", "P_PipeCrossing"), ("RouteIdFieldName", "ENGROUTEID"), ("ToRouteIdFieldName", "ENGTOROUTEID"), ("RouteNameFieldName", "ENGROUTENAME"), ("ToRouteNameFieldName", "ENGTOROUTENAME"), ("FromMeasureFieldName", "ENGFROMM"), ("ToMeasureFieldName", "ENGTOM"), ("IsPointEvent", "false"), ("FromReferentMethodFieldName", "FROMREFMETHOD"), ("ToReferentMethodFieldName", "TOREFMETHOD"), ("StoreFieldsFromDerivedNetworkWithEventRecords", "false"), ("DerivedRouteIdFieldName", ""), ("DerivedRouteNameFieldName", ""), ("DerivedFromMeasureFieldName", ""), ("DerivedToMeasureFieldName", "")] none [],
          .node 34 "EventTable" [("Name", "P_PipeExposure"), ("RouteIdFieldName", "ENGROUTEID"), ("ToRouteIdFieldName", "ENGTOROUTEID"), ("RouteNameFieldName", "ENGROUTENAME"), ("ToRouteNameFieldName", "ENGTOROUTENAME"), ("FromMeasureFieldName", "ENGFROMM"), ("ToMeasureFieldName", "ENGTOM"), ("IsPointEvent", "false"), ("FromReferentMethodFieldName", "FROMREFMETHOD"), ("ToReferentMethodFieldName", "TOREFMETHOD"), ("StoreFieldsFromDerivedNetworkWithEventRecords", "false"), ("DerivedRouteIdFieldName", ""), ("DerivedRouteNameFieldName", ""), ("DerivedFromMeasureFieldName", ""), ("DerivedToMeasureFieldName", "")] none [],
          .node 35 "EventTable" [("Name", "P_TestPressureRange"), ("RouteIdFieldName", "ENGROUTEID"), ("ToRouteIdFieldName", "ENGTOROUTEID"), ("RouteNameFieldName", "ENGROUTENAME"), ("ToRouteNameFieldName", "ENGTOROUTENAME"), ("FromMeasureFieldName", "ENGFROMM"), ("ToMeasureFieldName", "ENGTOM"), ("IsPointEvent", "false"), ("FromReferentMethodFieldName", "FROMREFMETHOD"), ("ToReferentMethodFieldName", "TOREFMETHOD"), ("StoreFieldsFromDerivedNetworkWithEventRecords", "false"), ("DerivedRouteIdFieldName", ""), ("DerivedRouteNameFieldName", ""), ("DerivedFromMeasureFieldName", ""), ("DerivedToMeasureFieldName", "")] none [],
          .node 36 "EventTable" [("Name", "P_CompressorStation"), ("RouteIdFieldName", "ENGROUTEID"), ("ToRouteIdFieldName", ""), ("RouteNameFieldName", "ENGROUTENAME"), ("ToRouteNameFieldName", ""), ("FromMeasureFieldName", "ENGM"), ("ToMeasureFieldName", ""), ("IsPointEvent", "true"), ("FromReferentMethodFieldName", "REFMETHOD"), ("ToReferentMethodFieldName", ""), ("StoreFieldsFromDerivedNetworkWithEventRecords", "false"), ("DerivedRouteIdFieldName", ""), ("DerivedRouteNameFieldName", ""), ("DerivedFromMeasureFieldName", ""), ("DerivedToMeasureFieldName", "")] none [],
          .node 37 "EventTable" [("Name", "P_CompressorUnit"), ("RouteIdFieldName", "ENGROUTEID"), ("ToRouteIdFieldName", ""), ("RouteNameFieldName", "ENGROUTENAME"), ("ToRouteNameFieldName", ""), ("FromMeasureFieldName", "ENGM"), ("ToMeasureFieldName", ""), ("IsPointEvent", "true"), ("FromReferentMethodFieldName", "REFMETHOD"), ("ToReferentMethodFieldName", ""), ("StoreFieldsFromDerivedNetworkWithEventRecords", "false"), ("DerivedRouteIdFieldName", ""), ("DerivedRouteNameFieldName", ""), ("DerivedFromMeasureFieldName", ""), ("DerivedToMeasureFieldName", "")] none [],
          .node 38 "EventTable" [("Name", "P_ControllableFitting"), ("RouteIdFieldName", "ENGROUTEID"), ("ToRouteIdFieldName", ""), ("RouteNameFieldName", "ENGROUTENAME"), ("ToRouteNameFieldName", ""), ("FromMeasureFieldName", "ENGM"), ("ToMeasureFieldName", ""), ("IsPointEvent", "true"), ("FromReferentMethodFieldName", "REFMETHOD"), ("ToReferentMethodFieldName", ""), ("StoreFieldsFromDerivedNetworkWithEventRecords", "false"), ("DerivedRouteIdFieldName", ""), ("DerivedRouteNameFieldName", ""), ("DerivedFromMeasureFieldName", ""), ("DerivedToMeasureFieldName", "")] none [],
          .node 39 "EventTable" [("Name", "P_CPAnode"), ("RouteIdFieldName", "ENGROUTEID"), ("ToRouteIdFieldName", ""), ("RouteNameFieldName", "ENGROUTENAME"), ("ToRouteNameFieldName", ""), ("FromMeasureFieldName", "ENGM"), ("ToMeasureFieldName", ""), ("IsPointEvent", "true"), ("FromReferentMethodFieldName", "REFMETHOD"), ("ToReferentMethodFieldName", ""), ("StoreFieldsFromDerivedNetworkWithEventRecords", "false"), ("DerivedRouteIdFieldName", ""), ("DerivedRouteNameFieldName", ""), ("DerivedFromMeasureFieldName", ""), ("DerivedToMeasureFieldName", "")] none [],
          .node 40 "EventTable" [("Name", "P_CPBondJunction"), ("RouteIdFieldName", "ENGROUTEID"), ("ToRouteIdFieldName", ""), ("RouteNameFieldName", "ENGROUTENAME"), ("ToRouteNameFieldName", ""), ("FromMeasureFieldName", "ENGM"), ("ToMeasureFieldName", ""), ("IsPointEvent", "true"), ("FromReferentMethodFieldName", "REFMETHOD"), ("ToReferentMethodFieldName", ""), ("StoreFieldsFromDerivedNetworkWithEventRecords", "false"), ("DerivedRouteIdFieldName", ""), ("DerivedRouteNameFieldName", ""), ("DerivedFromMeasureFieldName", ""), ("DerivedToMeasureFieldName", "")] none [],
          .node 41 "EventTable" [("Name", "P_CPBondWire"), ("RouteIdFieldName", "ENGROUTEID"), ("ToRouteIdFieldName", "ENGTOROUTEID"), ("RouteNameFieldName", "ENGROUTENAME"), ("ToRouteNameFieldName", "ENGTOROUTENAME"), ("FromMeasureFieldName", "ENGFROMM"), ("ToMeasureFieldName", "ENGTOM"), ("IsPointEvent", "false"), ("FromReferentMethodFieldName", "FROMREFMETHOD"), ("ToReferentMethodFieldName", "TOREFMETHOD"), ("StoreFieldsFromDerivedNetworkWithEventRecords", "false"), ("DerivedRouteIdFieldName", ""), ("DerivedRouteNameFieldName", ""), ("DerivedFromMeasureFieldName", ""), ("DerivedToMeasureFieldName", "")] none [],
          .node 42 "EventTable" [("Name", "P_CPRectifier"), ("RouteIdFieldName", "ENGROUTEID"), ("ToRouteIdFieldName", ""), ("RouteNameFieldName", "ENGROUTENAME"), ("ToRouteNameFieldName", ""), ("FromMeasureFieldName", "ENGM"), ("ToMeasureFieldName", ""), ("IsPointEvent", "true"), ("FromReferentMethodFieldName", "REFMETHOD"), ("ToReferentMethodFieldName", ""), ("StoreFieldsFromDerivedNetworkWithEventRecords", "false"), ("DerivedRouteIdFieldName", ""), ("DerivedRouteNameFieldName", ""), ("DerivedFromMeasureFieldName", ""), ("DerivedToMeasureFieldName", "")] none [],
          .node 43 "EventTable" [("Name", "P_CPRectifierCable"), ("RouteIdFieldName", "ENGROUTEID"), ("ToRouteIdFieldName", "ENGTOROUTEID"), ("RouteNameFieldName", "ENGROUTENAME"), ("ToRouteNameFieldName", "ENGTOROUTENAME"), ("FromMeasureFieldName", "ENGFROMM"), ("ToMeasureFieldName", "ENGTOM"), ("IsPointEvent", "false"), ("FromReferentMethodFieldName", "FROMREFMETHOD"), ("ToReferentMethodFieldName", "TOREFMETHOD"), ("StoreFieldsFromDerivedNetworkWithEventRecords", "false"), ("DerivedRouteIdFieldName", ""), ("DerivedRouteNameFieldName", ""), ("DerivedFromMeasureFieldName", ""), ("DerivedToMeasureFieldName", "")] none [],
          .node 44 "EventTable" [("Name", "P_CPTestPoint"), ("RouteIdFieldName", "ENGROUTEID"), ("ToRouteIdFieldName", ""), ("RouteNameFieldName", "ENGROUTENAME"), ("ToRouteNameFieldName", ""), ("FromMeasureFieldName", "ENGM"), ("ToMeasureFieldName", ""), ("IsPointEvent", "true"), ("FromReferentMethodFieldName", "REFMETHOD"), ("ToReferentMethodFieldName", ""), ("StoreFieldsFromDerivedNetworkWithEventRecords", "false"), ("DerivedRouteIdFieldName", ""), ("DerivedRouteNameFieldName", ""), ("DerivedFromMeasureFieldName", ""), ("DerivedToMeasureFieldName", "")] none [],
          .node 45 "EventTable" [("Name", "P_DehydrationEquip"), ("RouteIdFieldName", "ENGROUTEID"), ("ToRouteIdFieldName", ""), ("RouteNameFieldName", "ENGROUTENAME"), ("ToRouteNameFieldName", ""), ("FromMeasureFieldName", "ENGM"), ("ToMeasureFieldName", ""), ("IsPointEvent", "true"), ("FromReferentMethodFieldName", "REFMETHOD"), ("ToReferentMethodFieldName", ""), ("StoreFieldsFromDerivedNetworkWithEventRecords", "false"), ("DerivedRouteIdFieldName", ""), ("DerivedRouteNameFieldName", ""), ("DerivedFromMeasureFieldName", ""), ("DerivedToMeasureFieldName", "")] none [],
          .node 46 "EventTable" [("Name", "P_Drip"), ("RouteIdFieldName", "ENGROUTEID"), ("ToRouteIdFieldName", ""), ("RouteNameFieldName", "ENGROUTENAME"), ("ToRouteNameFieldName", ""), ("FromMeasureFieldName", "ENGM"), ("ToMeasureFieldName", ""), ("IsPointEvent", "true"), ("FromReferentMethodFieldName", "REFMETHOD"), ("ToReferentMethodFieldName", ""), ("StoreFieldsFromDerivedNetworkWithEventRecords", "false"), ("DerivedRouteIdFieldName", ""), ("DerivedRouteNameFieldName", ""), ("DerivedFromMeasureFieldName", ""), ("DerivedToMeasureFieldName", "")] none [],
          .node 47 "EventTable" [("Name", "P_ExcessFlowValve"), ("RouteIdFieldName", "ENGROUTEID"), ("ToRouteIdFieldName", ""), ("RouteNameFieldName", "ENGROUTENAME"), ("ToRouteNameFieldName", ""), ("FromMeasureFieldName", "ENGM"), ("ToMeasureFieldName", ""), ("IsPointEvent", "true"), ("FromReferentMethodFieldName", "REFMETHOD"), ("ToReferentMethodFieldName", ""), ("StoreFieldsFromDerivedNetworkWithEventRecords", "false"), ("DerivedRouteIdFieldName", ""), ("DerivedRouteNameFieldName", ""), ("DerivedFromMeasureFieldName", ""), ("DerivedToMeasureFieldName", "")] none [],
          .node 48 "EventTable" [("Name", "P_GasLamp"), ("RouteIdFieldName", "ENGROUTEID"), ("ToRouteIdFieldName", ""), ("RouteNameFieldName", "ENGROUTENAME"), ("ToRouteNameFieldName", ""), ("FromMeasureFieldName", "ENGM"), ("ToMeasureFieldName", ""), ("IsPointEvent", "true"), ("FromReferentMethodFieldName", "REFMETHOD"), ("ToReferentMethodFieldName", ""), ("StoreFieldsFromDerivedNetworkWithEventRecords", "false"), ("DerivedRouteIdFieldName", ""), ("DerivedRouteNameFieldName", ""), ("DerivedFromMeasureFieldName", ""), ("DerivedToMeasureFieldName", "")] none [],
          .node 49 "EventTable" [("Name", "P_GatherFieldPipe"), ("RouteIdFieldName", "ENGROUTEID"), ("ToRouteIdFieldName", "ENGTOROUTEID"), ("RouteNameFieldName", "ENGROUTENAME"), ("ToRouteNameFieldName", "ENGTOROUTENAME"), ("FromMeasureFieldName", "ENGFROMM"), ("ToMeasureFieldName", "ENGTOM"), ("IsPointEvent", "false"), ("FromReferentMethodFieldName", "FROMREFMETHOD"), ("ToReferentMethodFieldName", "TOREFMETHOD"), ("StoreFieldsFromDerivedNetworkWithEventRecords", "false"), ("DerivedRouteIdFieldName", ""), ("DerivedRouteNameFieldName", ""), ("DerivedFromMeasureFieldName", ""), ("DerivedToMeasureFieldName", "")] none [],
          .node 50 "EventTable" [("Name", "P_LineHeater"), ("RouteIdFieldName", "ENGROUTEID"), ("ToRouteIdFieldName", ""), ("RouteNameFieldName", "ENGROUTENAME"), ("ToRouteNameFieldName", ""), ("FromMeasureFieldName", "ENGM"), ("ToMeasureFieldName", ""), ("IsPointEvent", "true"), ("FromReferentMethodFieldName", "REFMETHOD"), ("ToReferentMethodFieldName", ""), ("StoreFieldsFromDerivedNetworkWithEventRecords", "false"), ("DerivedRouteIdFieldName", ""), ("DerivedRouteNameFieldName", ""), ("DerivedFromMeasureFieldName", ""), ("DerivedToMeasureFieldName", "")] none [],
          .node 51 "EventTable" [("Name", "P_MeterSetting"), ("RouteIdFieldName", "ENGROUTEID"), ("ToRouteIdFieldName", ""), ("RouteNameFieldName", "ENGROUTENAME"), ("ToRouteNameFieldName", ""), ("FromMeasureFieldName", "ENGM"), ("ToMeasureFieldName", ""), ("IsPointEvent", "true"), ("FromReferentMethodFieldName", "REFMETHOD"), ("ToReferentMethodFieldName", ""), ("StoreFieldsFromDerivedNetworkWithEventRecords", "false"), ("DerivedRouteIdFieldName", ""), ("DerivedRouteNameFieldName", ""), ("DerivedFromMeasureFieldName", ""), ("DerivedToMeasureFieldName", "")] none [],
          .node 52 "EventTable" [("Name", "P_NonControllableFitting"), ("RouteIdFieldName", "ENGROUTEID"), ("ToRouteIdFieldName", ""), ("RouteNameFieldName", "ENGROUTENAME"), ("ToRouteNameFieldName", ""), ("FromMeasureFieldName", "ENGM"), ("ToMeasureFieldName", ""), ("IsPointEvent", "true"), ("FromReferentMethodFieldName", "REFMETHOD"), ("ToReferentMethodFieldName", ""), ("StoreFieldsFromDerivedNetworkWithEventRecords", "false"), ("DerivedRouteIdFieldName", ""), ("DerivedRouteNameFieldName", ""), ("DerivedFromMeasureFieldName", ""), ("DerivedToMeasureFieldName", "")] none [],
          .node 53 "EventTable" [("Name", "P_Odorizer"), ("RouteIdFieldName", "ENGROUTEID"), ("ToRouteIdFieldName", ""), ("RouteNameFieldName", "ENGROUTENAME"), ("ToRouteNameFieldName", ""), ("FromMeasureFieldName", "ENGM"), ("ToMeasureFieldName", ""), ("IsPointEvent", "true"), ("FromReferentMethodFieldName", "REFMETHOD"), ("ToReferentMethodFieldName", ""), ("StoreFieldsFromDerivedNetworkWithEventRecords", "false"), ("DerivedRouteIdFieldName", ""), ("DerivedRouteNameFieldName", ""), ("DerivedFromMeasureFieldName", ""), ("DerivedToMeasureFieldName", "")] none [],
          .node 54 "EventTable" [("Name", "P_PigStructure"), ("RouteIdFieldName", "ENGROUTEID"), ("ToRouteIdFieldName", "ENGTOROUTEID"), ("RouteNameFieldName", "ENGROUTENAME"), ("ToRouteNameFieldName", "ENGTOROUTENAME"), ("FromMeasureFieldName", "ENGFROMM"), ("ToMeasureFieldName", "ENGTOM"), ("IsPointEvent", "false"), ("FromReferentMethodFieldName", "FROMREFMETHOD"), ("ToReferentMethodFieldName", "TOREFMETHOD"), ("StoreFieldsFromDerivedNetworkWithEventRecords", "false"), ("DerivedRouteIdFieldName", ""), ("DerivedRouteNameFieldName", ""), ("DerivedFromMeasureFieldName", ""), ("DerivedToMeasureFieldName", "")] none [],
          .node 55 "EventTable" [("Name", "P_Pipes"), ("RouteIdFieldName", "ENGROUTEID"), ("ToRouteIdFieldName", "ENGTOROUTEID"), ("RouteNameFieldName", "ENGROUTENAME"), ("ToRouteNameFieldName", "ENGTOROUTENAME"), ("FromMeasureFieldName", "ENGFROMM"), ("ToMeasureFieldName", "ENGTOM"), ("IsPointEvent", "false"), ("FromReferentMethodFieldName", "FROMREFMETHOD"), ("ToReferentMethodFieldName", "TOREFMETHOD"), ("StoreFieldsFromDerivedNetworkWithEventRecords", "false"), ("DerivedRouteIdFieldName", ""), ("DerivedRouteNameFieldName", ""), ("DerivedFromMeasureFieldName", ""), ("DerivedToMeasureFieldName", "")] none [],
          .node 56 "EventTable" [("Name", "P_PressureMonitoringDevice"), ("RouteIdFieldName", "ENGROUTEID"), ("ToRouteIdFieldName", ""), ("RouteNameFieldName", "ENGROUTENAME"), ("ToRouteNameFieldName", ""), ("FromMeasureFieldName", "ENGM"), ("ToMeasureFieldName", ""), ("IsPointEvent", "true"), ("FromReferentMethodFieldName", "REFMETHOD"), ("ToReferentMethodFieldName", ""), ("StoreFieldsFromDerivedNetworkWithEventRecords", "false"), ("DerivedRouteIdFieldName", ""), ("DerivedRouteNameFieldName", ""), ("DerivedFromMeasureFieldName", ""), ("DerivedToMeasureFieldName", "")] none [],
          .node 57 "EventTable" [("Name", "P_PumpStation"), ("RouteIdFieldName", "ENGROUTEID"), ("ToRouteIdFieldName", ""), ("RouteNameFieldName", "ENGROUTENAME"), ("ToRouteNameFieldName", ""), ("FromMeasureFieldName", "ENGM"), ("ToMeasureFieldName", ""), ("IsPointEvent", "true"), ("FromReferentMethodFieldName", "REFMETHOD"), ("ToReferentMethodFieldName", ""), ("StoreFieldsFromDerivedNetworkWithEventRecords", "false"), ("DerivedRouteIdFieldName", ""), ("DerivedRouteNameFieldName", ""), ("DerivedFromMeasureFieldName", ""), ("DerivedToMeasureFieldName", "")] none [],
          .node 58 "EventTable" [("Name", "P_Regulator"), ("RouteIdFieldName", "ENGROUTEID"), ("ToRouteIdFieldName", ""), ("RouteNameFieldName", "ENGROUTENAME"), ("ToRouteNameFieldName", ""), ("FromMeasureFieldName", "ENGM"), ("ToMeasureFieldName", ""), ("IsPointEvent", "true"), ("FromReferentMethodFieldName", "REFMETHOD"), ("ToReferentMethodFieldName", ""), ("StoreFieldsFromDerivedNetworkWithEventRecords", "false"), ("DerivedRouteIdFieldName", ""), ("DerivedRouteNameFieldName", ""), ("DerivedFromMeasureFieldName", ""), ("DerivedToMeasureFieldName", "")] none [],
          .node 59 "EventTable" [("Name", "P_RegulatorStation"), ("RouteIdFieldName", "ENGROUTEID"), ("ToRouteIdFieldName", ""), ("RouteNameFieldName", "ENGROUTENAME"), ("ToRouteNameFieldName", ""), ("FromMeasureFieldName", "ENGM"), ("ToMeasureFieldName", ""), ("IsPointEvent", "true"), ("FromReferentMethodFieldName", "REFMETHOD"), ("ToReferentMethodFieldName", ""), ("StoreFieldsFromDerivedNetworkWithEventRecords", "false"), ("DerivedRouteIdFieldName", ""), ("DerivedRouteNameFieldName", ""), ("DerivedFromMeasureFieldName", ""), ("DerivedToMeasureFieldName", "")] none [],
          .node 60 "EventTable" [("Name", "P_ReliefValve"), ("RouteIdFieldName", "ENGROUTEID"), ("ToRouteIdFieldName", ""), ("RouteNameFieldName", "ENGROUTENAME"), ("ToRouteNameFieldName", ""), ("FromMeasureFieldName", "ENGM"), ("ToMeasureFieldName", ""), ("IsPointEvent", "true"), ("FromReferentMethodFieldName", "REFMETHOD"), ("ToReferentMethodFieldName", ""), ("StoreFieldsFromDerivedNetworkWithEventRecords", "false"), ("DerivedRouteIdFieldName", ""), ("DerivedRouteNameFieldName", ""), ("DerivedFromMeasureFieldName", ""), ("DerivedToMeasureFieldName", "")] none [],
          .node 61 "EventTable" [("Name", "P_RuralTap"), ("RouteIdFieldName", "ENGROUTEID"), ("ToRouteIdFieldName", ""), ("RouteNameFieldName", "ENGROUTENAME"), ("ToRouteNameFieldName", ""), ("FromMeasureFieldName", "ENGM"), ("ToMeasureFieldName", ""), ("IsPointEvent", "true"), ("FromReferentMethodFieldName", "REFMETHOD"), ("ToReferentMethodFieldName", ""), ("StoreFieldsFromDerivedNetworkWithEventRecords", "false"), ("DerivedRouteIdFieldName", ""), ("DerivedRouteNameFieldName", ""), ("DerivedFromMeasureFieldName", ""), ("DerivedToMeasureFieldName", "")] none [],
          .node 62 "EventTable" [("Name", "P_Scrubber"), ("RouteIdFieldName", "ENGROUTEID"), ("ToRouteIdFieldName", ""), ("RouteNameFieldName", "ENGROUTENAME"), ("ToRouteNameFieldName", ""), ("FromMeasureFieldName", "ENGM"), ("ToMeasureFieldName", ""), ("IsPointEvent", "true"), ("FromReferentMethodFieldName", "REFMETHOD"), ("ToReferentMethodFieldName", ""), ("StoreFieldsFromDerivedNetworkWithEventRecords", "false"), ("DerivedRouteIdFieldName", ""), ("DerivedRouteNameFieldName", ""), ("DerivedFromMeasureFieldName", ""), ("DerivedToMeasureFieldName", "")] none [],
          .node 63 "EventTable" [("Name", "P_Strainer"), ("RouteIdFieldName", "ENGROUTEID"), ("ToRouteIdFieldName", ""), ("RouteNameFieldName", "ENGROUTENAME"), ("ToRouteNameFieldName", ""), ("FromMeasureFieldName", "ENGM"), ("ToMeasureFieldName", ""), ("IsPointEvent", "true"), ("FromReferentMethodFieldName", "REFMETHOD"), ("ToReferentMethodFieldName", ""), ("StoreFieldsFromDerivedNetworkWithEventRecords", "false"), ("DerivedRouteIdFieldName", ""), ("DerivedRouteNameFieldName", ""), ("DerivedFromMeasureFieldName", ""), ("DerivedToMeasureFieldName", "")] none [],
          .node 64 "EventTable" [("Name", "P_Tank"), ("RouteIdFieldName", "ENGROUTEID"), ("ToRouteIdFieldName", ""), ("RouteNameFieldName", "ENGROUTENAME"), ("ToRouteNameFieldName", ""), ("FromMeasureFieldName", "ENGM"), ("ToMeasureFieldName", ""), ("IsPointEvent", "true"), ("FromReferentMethodFieldName", "REFMETHOD"), ("ToReferentMethodFieldName", ""), ("StoreFieldsFromDerivedNetworkWithEventRecords", "false"), ("DerivedRouteIdFieldName", ""), ("DerivedRouteNameFieldName", ""), ("DerivedFromMeasureFieldName", ""), ("DerivedToMeasureFieldName", "")] none [],
          .node 65 "EventTable" [("Name", "P_TownBorderStation"), ("RouteIdFieldName", "ENGROUTEID"), ("ToRouteIdFieldName", ""), ("RouteNameFieldName", "ENGROUTENAME"), ("ToRouteNameFieldName", ""), ("FromMeasureFieldName", "ENGM"), ("ToMeasureFieldName", ""), ("IsPointEvent", "true"), ("FromReferentMethodFieldName", "REFMETHOD"), ("ToReferentMethodFieldName", ""), ("StoreFieldsFromDerivedNetworkWithEventRecords", "false"), ("DerivedRouteIdFieldName", ""), ("DerivedRouteNameFieldName", ""), ("DerivedFromMeasureFieldName", ""), ("DerivedToMeasureFieldName", "")] none [],
          .node 66 "EventTable" [("Name", "P_Valve"), ("RouteIdFieldName", "ENGROUTEID"), ("ToRouteIdFieldName", ""), ("RouteNameFieldName", "ENGROUTENAME"), ("ToRouteNameFieldName", ""), ("FromMeasureFieldName", "ENGM"), ("ToMeasureFieldName", ""), ("IsPointEvent", "true"), ("FromReferentMethodFieldName", "REFMETHOD"), ("ToReferentMethodFieldName", ""), ("StoreFieldsFromDerivedNetworkWithEventRecords", "false"), ("DerivedRouteIdFieldName", ""), ("DerivedRouteNameFieldName", ""), ("DerivedFromMeasureFieldName", ""), ("DerivedToMeasureFieldName", "")] none [],
          .node 67 "EventTable" [("Name", "P_Wellhead"), ("RouteIdFieldName", "ENGROUTEID"), ("ToRouteIdFieldName", ""), ("RouteNameFieldName", "ENGROUTENAME"), ("ToRouteNameFieldName", ""), ("FromMeasureFieldName", "ENGM"), ("ToMeasureFieldName", ""), ("IsPointEvent", "true"), ("FromReferentMethodFieldName", "REFMETHOD"), ("ToReferentMethodFieldName", ""), ("StoreFieldsFromDerivedNetworkWithEventRecords", "false"), ("DerivedRouteIdFieldName", ""), ("DerivedRouteNameFieldName", ""), ("DerivedFromMeasureFieldName", ""), ("DerivedToMeasureFieldName", "")] none []
          ],
        .node 68 "IntersectionClasses" [] none [],
        .node 69 "UnitsOfMeasure" [] none [],
        .node 70 "TimeZoneOffset" [] none [],
        .node 71 "TimeZoneId" [] none [],
        .node 72 "RoutePriorityRules" [] none []
        ]
      ],
    .node 73 "FieldNames" [] none
      [
      .node 74 "Route" [] none [],
      .node 75 "CenterlineSequence" [] none [],
      .node 76 "CalibrationPoint" [] none [],
      .node 77 "Centerline" [] none [],
      .node 78 "Redline" [] none []
      ]
    ]

/-! ## Checkers for the metadata postconditions -/

/-- All `EventTable` elements anywhere in a document. -/
def eventTablesIn (e : XElem) : List XElem :=
  (allElems e).filter (fun d => d.tag == "EventTable")

/-- The subtree of the network with the given name (via the same
`find("Networks")` / `find("Network[@Name=...]")` lookups the script uses). -/
def networkSubtree (doc : XElem) (nm : String) : Option XElem :=
  match doc.find1 "Networks" with
  | none => none
  | some networks => findChildTagName "Network" nm networks.children

/-- `EventTable` elements anywhere under the named network's subtree. -/
def eventTablesUnder (doc : XElem) (nm : String) : List XElem :=
  match networkSubtree doc nm with
  | none => []
  | some nw => eventTablesIn nw

/-- CONTINUOUS postcondition: no event table of the document keeps a
non-empty `ToRouteIdFieldName`. -/
def noNonemptyToRouteId (doc : XElem) : Bool :=
  (eventTablesIn doc).all (fun et => (et.getA "ToRouteIdFieldName").getD "" == "")

/-- ENGINEERING postcondition on one event table: derived-network fields
stored with event records, fixed continuous route id/name field names, and
the derived measure field(s) by event kind. -/
def derivedFieldsSet (et : XElem) : Bool :=
  (et.getA "StoreFieldsFromDerivedNetworkWithEventRecords" == some "true") &&
  (et.getA "DerivedRouteIdFieldName" == some "CONTINROUTEID") &&
  (et.getA "DerivedRouteNameFieldName" == some "CONTINROUTENAME") &&
  (if et.getA "IsPointEvent" == some "true" then
    et.getA "DerivedFromMeasureFieldName" == some "CONTINM"
  else
    (et.getA "DerivedFromMeasureFieldName" == some "CONTINFROMM") &&
    (et.getA "DerivedToMeasureFieldName" == some "CONTINTOM"))

/-- ENGINEERING postcondition: every event table under the engineering
network has the derived fields set. -/
def engineeringDerivedOk (doc : XElem) : Bool :=
  (eventTablesUnder doc "P_EngineeringNetwork").all derivedFieldsSet

/-- CONTINUOUS structural-move postcondition, comparing a result document
against the original: the continuous network's subtree holds exactly the
rewritten original engineering event tables, the engineering network's
`EventTables` element is left without `EventTable` children, and no event
table sits under both networks. -/
def continuousMoveOk (orig res : XElem) : Bool :=
  (eventTablesUnder res "P_ContinuousNetwork" ==
    updateContinuousEventTables (eventTablesUnder orig "P_EngineeringNetwork")) &&
  (eventTablesUnder res "P_EngineeringNetwork" == []) &&
  ((eventTablesUnder res "P_ContinuousNetwork").all
    (fun et => !((eventTablesUnder res "P_EngineeringNetwork").contains et)))

/-! ## Remaining auxiliary definitions (decimal digits, concrete witnesses) -/

/-- Value of a decimal digit character (inverse of `Nat.digitChar` on 0–9). -/
def chVal (c : Char) : Nat := c.toNat - 48

/-- Value of a decimal digit string (used to invert `Nat.repr`). -/
def decValOf (l : List Char) : Nat := l.foldl (fun a c => 10 * a + chVal c) 0

/-- A document with one `SpatialReference` nested inside another. -/
def nestedSRDoc : XElem :=
  .node 0 "Root" [] none
    [.node 1 "SpatialReference" [] none
      [.node 2 "SpatialReference" [] none []]]

/-- A freshly generated replacement fragment (identity outside the document). -/
def freshSRFragment : XElem := .node 10 "SpatialReference" [] none []

/-- A document with two `SpatialReference` elements at unrelated positions. -/
def twoSRDoc : XElem :=
  .node 0 "Root" [] none
    [.node 1 "SpatialReference" [] none [],
     .node 2 "A" [] none [.node 3 "SpatialReference" [] none []]]

/-- A workspace document declaring no datasets and no domains. -/
def emptyWorkspaceDoc : XElem :=
  .node 0 "Workspace" [] none
    [.node 1 "WorkspaceDefinition" [] none
      [.node 2 "DatasetDefinitions" [] none [],
       .node 3 "Domains" [] none []]]

/-- A workspace document declaring five dataset names `T1 … T5`. -/
def fiveNamesWorkspaceDoc : XElem :=
  .node 0 "Workspace" [] none
    [.node 1 "WorkspaceDefinition" [] none
      [.node 2 "DatasetDefinitions" [] none
        [.node 3 "DataElement" [] none [.node 4 "Name" [] (some "T1") []],
         .node 5 "DataElement" [] none [.node 6 "Name" [] (some "T2") []],
         .node 7 "DataElement" [] none [.node 8 "Name" [] (some "T3") []],
         .node 9 "DataElement" [] none [.node 10 "Name" [] (some "T4") []],
         .node 11 "DataElement" [] none [.node 12 "Name" [] (some "T5") []]],
       .node 13 "Domains" [] none []]]

/-- A workspace document declaring the single dataset name `P_Existing`. -/
def conflictWorkspaceDoc : XElem :=
  .node 0 "Workspace" [] none
    [.node 1 "WorkspaceDefinition" [] none
      [.node 2 "DatasetDefinitions" [] none
        [.node 3 "DataElement" [] none [.node 4 "Name" [] (some "P_Existing") []]],
       .node 5 "Domains" [] none []]]

/-- A spatial reference with the usual small positive tolerances. -/
def srDefault : SpatialReference := ⟨1, 1, 1⟩

/-- Valid parameters except that the XY tolerance parameter is `0`
(so the spatial reference's own positive tolerance is substituted). -/
def paramsZeroXY : Params :=
  ⟨"out.gdb", some srDefault, "FEET", some 0, some 1, "ENGINEERING", none⟩

/-- Parameters that are valid except for an unrecognized measure-unit
string. -/
def paramsBadUnits : Params :=
  ⟨"out.gdb", some srDefault, "PARSECS", some 1, some 1, "ENGINEERING", none⟩

/-- Valid parameters except for a negative XY tolerance parameter. -/
def paramsNegXY : Params :=
  ⟨"out.gdb", some srDefault, "FEET", some (-1), some 1, "ENGINEERING", none⟩

/-- Parameters leaving every defaultable input empty. -/
def paramsAllDefaults : Params :=
  ⟨"out.gdb", some srDefault, "", none, none, "", none⟩

/-! # Theorems -/

/-! ## Decimal rendering round-trip (for index-name uniqueness) -/

theorem toDigitsCore_append_nil (f : Nat) : ∀ (n : Nat) (acc : List Char),
    Nat.toDigitsCore 10 f n acc = Nat.toDigitsCore 10 f n [] ++ acc := by
  induction f with
  | zero => intro n acc; simp [Nat.toDigitsCore]
  | succ f ih =>
    intro n acc
    simp only [Nat.toDigitsCore]
    by_cases h : n / 10 = 0
    · simp [h]
    · rw [if_neg h, if_neg h, ih (n / 10) (Nat.digitChar (n % 10) :: acc),
        ih (n / 10) [Nat.digitChar (n % 10)], List.append_assoc]
      rfl

theorem chVal_digitChar {m : Nat} (h : m < 10) : chVal (Nat.digitChar m) = m := by
  interval_cases m <;> rfl

theorem decValOf_append_singleton (l : List Char) (c : Char) :
    decValOf (l ++ [c]) = 10 * decValOf l + chVal c := by
  simp [decValOf, List.foldl_append]

theorem decValOf_toDigitsCore : ∀ (f n : Nat), n < 10 ^ f →
    decValOf (Nat.toDigitsCore 10 f n []) = n := by
  intro f
  induction f with
  | zero =>
    intro n h
    interval_cases n
    rfl
  | succ f ih =>
    intro n h
    simp only [Nat.toDigitsCore]
    by_cases h0 : n / 10 = 0
    · rw [if_pos h0]
      have hn : n < 10 := by omega
      show decValOf [Nat.digitChar (n % 10)] = n
      simp [decValOf, Nat.mod_eq_of_lt hn, chVal_digitChar hn]
    · have hdiv : n / 10 < 10 ^ f := by
        rw [Nat.div_lt_iff_lt_mul (by norm_num : (0:Nat) < 10)]
        calc n < 10 ^ (f + 1) := h
        _ = 10 ^ f * 10 := by ring
      have h10 : n % 10 < 10 := Nat.mod_lt _ (by norm_num)
      rw [if_neg h0, toDigitsCore_append_nil, decValOf_append_singleton,
        ih (n / 10) hdiv, chVal_digitChar h10, Nat.div_add_mod]

theorem decValOf_toDigits (n : Nat) : decValOf (Nat.toDigits 10 n) = n := by
  have h1 : n < 10 ^ (n + 1) :=
    lt_of_lt_of_le (Nat.lt_pow_self (by norm_num) n)
      (Nat.pow_le_pow_right (by norm_num) (Nat.le_succ n))
  exact decValOf_toDigitsCore (n + 1) n h1

theorem natRepr_injective {m n : Nat} (h : Nat.repr m = Nat.repr n) : m = n := by
  have hd : Nat.toDigits 10 m = Nat.toDigits 10 n := by
    have h2 := congrArg String.data h
    simpa [Nat.repr, List.asString] using h2
  have h3 := congrArg decValOf hd
  rwa [decValOf_toDigits, decValOf_toDigits] at h3

/-! ## C5: index name generation -/

theorem addIndexGo_fst (base : String) : ∀ (ts : List String) (i : Nat) (nm : String),
    (addIndexGo base i nm ts).map Prod.fst = ts := by
  intro ts
  induction ts with
  | nil => intro i nm; rfl
  | cons t ts ih =>
    intro i nm
    simp only [addIndexGo, List.map_cons, List.cons.injEq, true_and]
    exact ih (i + 1) (base ++ "_" ++ Nat.repr (i + 1))

theorem addIndexGo_snd (base : String) : ∀ (ts : List String) (i : Nat),
    (addIndexGo base (i + 1) (base ++ "_" ++ Nat.repr (i + 1)) ts).map Prod.snd =
      (List.range' (i + 1) ts.length).map (fun j => base ++ "_" ++ Nat.repr j) := by
  intro ts
  induction ts with
  | nil => intro i; rfl
  | cons t ts ih =>
    intro i
    simp only [addIndexGo, List.map_cons, List.length_cons, List.range'_succ]
    exact congrArg (_ :: ·) (ih (i + 1))

theorem indexNameSeq_nodup (base : String) (k : Nat) : (indexNameSeq base k).Nodup := by
  cases k with
  | zero => simp [indexNameSeq]
  | succ k =>
    simp only [indexNameSeq, List.nodup_cons]
    constructor
    · intro hmem
      obtain ⟨j, _, hfj⟩ := List.mem_map.mp hmem
      have hlen := congrArg String.length hfj
      rw [String.length_append, String.length_append] at hlen
      have h1 : ("_" : String).length = 1 := rfl
      omega
    · refine List.Nodup.map ?_ (by simp [List.nodup_range'])
      intro i j hij
      have hd := congrArg String.data hij
      rw [String.data_append, String.data_append, String.data_append,
        String.data_append, List.append_assoc, List.append_assoc] at hd
      have h2 := List.append_cancel_left (List.append_cancel_left hd)
      exact natRepr_injective (String.ext h2)

/-- C5: for an index specification with base name `base` applied across a
list of `K` tables, `addIndex` issues the `AddIndex_management` calls in
table-list order with the name sequence `base, base_2, …, base_K`, and this
sequence contains no duplicate names. -/
theorem addIndex_nameSequence (base : String) (tables : List String) :
    (addIndex base tables).map Prod.fst = tables ∧
    (addIndex base tables).map Prod.snd = indexNameSeq base tables.length ∧
    (indexNameSeq base tables.length).Nodup := by
  refine ⟨addIndexGo_fst base tables 1 base, ?_, indexNameSeq_nodup base tables.length⟩
  cases tables with
  | nil => rfl
  | cons t ts =>
    show (addIndexGo base 1 base (t :: ts)).map Prod.snd = _
    simp only [addIndexGo, List.map_cons, indexNameSeq, List.length_cons]
    exact congrArg (_ :: ·) (addIndexGo_snd base ts 1)

/-! ## C4: unit conversion round-trip -/

theorem unitKeys_spec : ∀ a ∈ unitKeys, pyLower a = a ∧
    (lookupTbl a unitsConversions).isSome = true ∧
    (lookupTbl a unitsConversions).getD 0 ≠ 0 := by
  intro a ha
  fin_cases ha <;> refine ⟨rfl, rfl, ?_⟩ <;>
    simp only [lookupTbl, unitsConversions, String.reduceEq, reduceIte, Option.getD_some] <;>
    norm_num

/-- C4: for every pair of unit names in the conversion table of
`convertUnits` and every nonzero distance, converting A→B and then B→A
returns the original distance exactly (the per-meter factors being modelled
as exact rationals).  The table has 11 keys. -/
theorem convertUnits_roundTrip (a b : String) (d : ℚ)
    (ha : a ∈ unitKeys) (hb : b ∈ unitKeys) (_hd : d ≠ 0) :
    (convertUnits d (some b) (some a)).bind (fun x => convertUnits x (some a) (some b)) =
      .ok d := by
  obtain ⟨hla, hsa, hna⟩ := unitKeys_spec a ha
  obtain ⟨hlb, hsb, hnb⟩ := unitKeys_spec b hb
  obtain ⟨va, hva⟩ := Option.isSome_iff_exists.mp hsa
  obtain ⟨vb, hvb⟩ := Option.isSome_iff_exists.mp hsb
  rw [hva] at hna
  rw [hvb] at hnb
  simp only [Option.getD_some] at hna hnb
  by_cases hab : a = b
  · subst hab
    simp [convertUnits, hla, Except.bind]
  · have hba : b ≠ a := fun hc => hab hc.symm
    simp only [convertUnits, Option.map_some', hla, hlb, if_neg hab, if_neg hba,
      hva, hvb, Except.bind]
    congr 1
    field_simp
    ring

/-- C4 witness: the round trip feet→miles→feet at distance 7. -/
theorem convertUnits_roundTrip_witness :
    "feet" ∈ unitKeys ∧ "miles" ∈ unitKeys ∧ (7 : ℚ) ≠ 0 ∧
    (convertUnits 7 (some "miles") (some "feet")).bind
      (fun x => convertUnits x (some "feet") (some "miles")) = .ok 7 :=
  ⟨by decide, by decide, by norm_num,
    convertUnits_roundTrip "feet" "miles" 7 (by decide) (by decide) (by norm_num)⟩

/-! ## C9: conversion failure on a missing table entry -/

/-- C9 counterexample: `"parsecs"` is not a key of the conversion table, yet
converting from `"parsecs"` to `"parsecs"` returns the distance unchanged
instead of raising — the equal-names early return fires before the table
membership test. -/
theorem convertUnits_missingKey_counterexample :
    "parsecs" ∉ unitKeys ∧ convertUnits 5 (some "parsecs") (some "parsecs") = .ok 5 :=
  ⟨by decide, rfl⟩

/-- C9 (amended): when the lower-cased source and target unit names differ
and at least one of them is missing from the conversion table,
`convertUnits` raises the tool execution error with the fixed message
instead of returning a value. -/
theorem convertUnits_missingKey (d : ℚ) (toU fromU : String)
    (hne : pyLower fromU ≠ pyLower toU)
    (hmiss : lookupTbl (pyLower fromU) unitsConversions = none ∨
      lookupTbl (pyLower toU) unitsConversions = none) :
    convertUnits d (some toU) (some fromU) =
      .error "Cannot calculate m tolerance and resolution." := by
  simp only [convertUnits, Option.map_some', if_neg hne]
  rcases hmiss with h | h
  · rw [h]
    cases lookupTbl (pyLower toU) unitsConversions <;> rfl
  · rw [h]

/-- C9 witness: converting furlongs to meters raises the fixed message. -/
theorem convertUnits_missingKey_witness :
    pyLower "furlongs" ≠ pyLower "meters" ∧
    (lookupTbl (pyLower "furlongs") unitsConversions = none ∨
      lookupTbl (pyLower "meters") unitsConversions = none) ∧
    convertUnits 3 (some "meters") (some "furlongs") =
      .error "Cannot calculate m tolerance and resolution." :=
  ⟨by decide, Or.inl (by decide),
    convertUnits_missingKey 3 "meters" "furlongs" (by decide) (Or.inl (by decide))⟩

/-! ## C1 and C2: metadata patcher postconditions on the embedded blobs -/

/-- C1: on both embedded metadata blobs, after `updateContinuousMetadata`
(CONTINUOUS branch) no `EventTable` element anywhere in the resulting
document has a non-empty `ToRouteIdFieldName`; after `setDerivedNetwork`
(ENGINEERING branch) every `EventTable` element under the engineering
network stores derived-network fields with event records, has the fixed
continuous route id/name field names, and has the derived measure field(s)
set according to its point/line kind. -/
theorem metadata_mode_postconditions :
    (updateContinuousMetadata lrsMetadataBlob).map noNonemptyToRouteId = some true ∧
    (updateContinuousMetadata lrsMetadataBlobPipeSystem).map noNonemptyToRouteId = some true ∧
    (setDerivedNetwork lrsMetadataBlob).map engineeringDerivedOk = some true ∧
    (setDerivedNetwork lrsMetadataBlobPipeSystem).map engineeringDerivedOk = some true :=
  ⟨rfl, rfl, rfl, rfl⟩

/-- C2: on both embedded metadata blobs, `updateContinuousMetadata` performs
a structural move of the event-table list: the continuous network's subtree
ends up holding exactly the (attribute-rewritten) event tables previously
under the engineering network, the engineering network's `EventTables`
element is left without `EventTable` children, and no event table sits
under both networks. -/
theorem continuous_metadata_structural_move :
    (updateContinuousMetadata lrsMetadataBlob).map
      (continuousMoveOk lrsMetadataBlob) = some true ∧
    (updateContinuousMetadata lrsMetadataBlobPipeSystem).map
      (continuousMoveOk lrsMetadataBlobPipeSystem) = some true :=
  ⟨rfl, rfl⟩

/-! ## C3: spatial-reference substitution -/

/-- C3 counterexample: on a document whose two `SpatialReference` elements
are nested, the replacement loop detaches the outer element together with
the inner one's recorded parent, so the result holds one `SpatialReference`
element instead of two — the claimed count preservation fails. -/
theorem replaceSpatialReference_nested_counterexample :
    srCount nestedSRDoc = 2 ∧
    replaceSpatialReference freshSRFragment nestedSRDoc =
      some (XElem.node 0 "Root" [] none [freshSRFragment]) ∧
    srCount (XElem.node 0 "Root" [] none [freshSRFragment]) = 1 :=
  ⟨rfl, rfl, rfl⟩

/-! ## C6: pre-flight conflict detection -/

theorem collectDatasetConflicts_filter (g : String → Bool) :
    ∀ (l : List XElem) (names : List String), collectDatasetNames l = some names →
      collectDatasetConflicts g l = some (names.filter g) := by
  intro l
  induction l with
  | nil =>
    intro names h
    simp only [collectDatasetNames, Option.some.injEq] at h
    subst h
    rfl
  | cons de rest ih =>
    intro names h
    simp only [collectDatasetNames] at h
    simp only [collectDatasetConflicts]
    cases hn : getXmlProperty (some de) (some "Name") with
    | none => rw [hn] at h; exact absurd h (by simp)
    | some n =>
      rw [hn] at h
      cases hr : collectDatasetNames rest with
      | none => rw [hr] at h; exact absurd h (by simp)
      | some l2 =>
        rw [hr] at h
        simp only [Option.some.injEq] at h
        subst h
        rw [ih l2 hr]
        by_cases hg : g n <;> simp [List.filter_cons, hg]

theorem checkDatasetNamesDoc_filter (g : String → Bool) (doc : XElem)
    (names : List String) (h : declaredDatasetNamesDoc doc = some names) :
    checkDatasetNamesDoc g doc = some (names.filter g) := by
  unfold declaredDatasetNamesDoc at h
  unfold checkDatasetNamesDoc
  cases hwd : doc.find1 "WorkspaceDefinition" with
  | none =>
    simp only [hwd] at h
    exact Option.noConfusion h
  | some wd =>
    simp only [hwd] at h ⊢
    cases hdd : wd.find1 "DatasetDefinitions" with
    | none =>
      simp only [hdd] at h
      exact Option.noConfusion h
    | some dd =>
      simp only [hdd] at h ⊢
      exact collectDatasetConflicts_filter g (dd.findall "DataElement") names h

theorem checkDatasetNames_filter (g : String → Bool) :
    ∀ (docs : List XElem) (names : List String), declaredDatasetNames docs = some names →
      checkDatasetNames docs g = some (names.filter g) := by
  intro docs
  induction docs with
  | nil =>
    intro names h
    simp only [declaredDatasetNames, Option.some.injEq] at h
    subst h
    rfl
  | cons doc rest ih =>
    intro names h
    simp only [declaredDatasetNames] at h
    simp only [checkDatasetNames]
    cases hd : declaredDatasetNamesDoc doc with
    | none =>
      simp only [hd] at h
      exact Option.noConfusion h
    | some l1 =>
      simp only [hd] at h
      cases hr : declaredDatasetNames rest with
      | none =>
        simp only [hr] at h
        exact Option.noConfusion h
      | some l2 =>
        simp only [hr, Option.some.injEq] at h
        subst h
        rw [checkDatasetNamesDoc_filter g doc l1 hd, ih l2 hr, List.filter_append]

theorem intercalate_go_holds (s : String) : ∀ (as : List String) (acc : String),
    acc.data <:+: (String.intercalate.go acc s as).data ∧
    ∀ x ∈ as, x.data <:+: (String.intercalate.go acc s as).data := by
  intro as
  induction as with
  | nil =>
    intro acc
    exact ⟨List.infix_rfl, by simp⟩
  | cons a as ih =>
    intro acc
    have hstep : String.intercalate.go acc s (a :: as) = String.intercalate.go (acc ++ s ++ a) s as := rfl
    rw [hstep]
    constructor
    · refine List.IsInfix.trans ?_ (ih (acc ++ s ++ a)).1
      rw [String.data_append, String.data_append]
      exact ⟨[], s.data ++ a.data, by simp⟩
    · intro x hx
      rcases List.mem_cons.mp hx with rfl | hx
      · refine List.IsInfix.trans ?_ (ih (acc ++ s ++ x)).1
        rw [String.data_append]
        exact ⟨(acc ++ s).data, [], by simp⟩
      · exact (ih (acc ++ s ++ a)).2 x hx

theorem mem_intercalate_holds (s : String) (l : List String) (x : String) (hx : x ∈ l) :
    x.data <:+: (String.intercalate s l).data := by
  cases l with
  | nil => cases hx
  | cons a as =>
    show x.data <:+: (String.intercalate.go a s as).data
    rcases List.mem_cons.mp hx with rfl | hx
    · exact (intercalate_go_holds s as x).1
    · exact (intercalate_go_holds s as a).2 x hx

/-- C6: modelling the existence checks as oracles over declared names,
`checkDatasetNames` returns exactly the declared dataset names that already
exist, in declaration order; and with a non-empty conflict list and the
overwrite switch off, `checkNames` raises a single error whose message
lists every conflicting item. -/
theorem conflict_detection_complete :
    (∀ (docs : List XElem) (g : String → Bool) (names : List String),
      declaredDatasetNames docs = some names →
        checkDatasetNames docs g = some (names.filter g)) ∧
    (∀ (updm lrs : XElem) (g gd : String → Bool) (ds dm : List String),
      checkDatasetNames [updm, lrs] g = some ds →
      checkDomainNames [updm, lrs] gd = some dm →
      ds ++ dm ≠ [] →
      checkNames updm lrs g gd false =
        some ([], .error (checkNamesErrorMessage ds dm)) ∧
      ∀ x ∈ ds ++ dm, x.data <:+: (checkNamesErrorMessage ds dm).data) := by
  constructor
  · intro docs g names h
    exact checkDatasetNames_filter g docs names h
  · intro updm lrs g gd ds dm hds hdm hne
    have hcond : ds.length > 0 ∨ dm.length > 0 := by
      rcases List.exists_mem_of_ne_nil _ hne with ⟨x, hx⟩
      rcases List.mem_append.mp hx with hx | hx
      · exact Or.inl (List.length_pos.mpr (List.ne_nil_of_mem hx))
      · exact Or.inr (List.length_pos.mpr (List.ne_nil_of_mem hx))
    constructor
    · unfold checkNames
      simp only [hds, hdm]
      rw [if_pos hcond]
      rfl
    · intro x hx
      have h1 : x.data <:+: (String.intercalate ", " (ds ++ dm)).data :=
        mem_intercalate_holds ", " (ds ++ dm) x hx
      refine List.IsInfix.trans h1 ?_
      unfold checkNamesErrorMessage
      rw [String.data_append, String.data_append]
      exact ⟨("Some items already exist in the workspace.\n[" : String).data,
        ("]" : String).data, by simp⟩

/-- C6 witness: five declared tables `T1 … T5` of which `T2` and `T5`
pre-exist — the conflict scan returns exactly those two, and with the
overwrite switch off `checkNames` raises the consolidated error naming
both. -/
theorem conflict_detection_complete_witness :
    declaredDatasetNames [fiveNamesWorkspaceDoc, emptyWorkspaceDoc] =
      some ["T1", "T2", "T3", "T4", "T5"] ∧
    checkDatasetNames [fiveNamesWorkspaceDoc, emptyWorkspaceDoc]
      (fun n => n == "T2" || n == "T5") = some ["T2", "T5"] ∧
    checkNames fiveNamesWorkspaceDoc emptyWorkspaceDoc
      (fun n => n == "T2" || n == "T5") (fun _ => false) false =
      some ([], .error (checkNamesErrorMessage ["T2", "T5"] [])) ∧
    ("T2" : String).data <:+: (checkNamesErrorMessage ["T2", "T5"] []).data := by
  refine ⟨rfl, ?_, ?_, ?_⟩
  · have h := (conflict_detection_complete.1) [fiveNamesWorkspaceDoc, emptyWorkspaceDoc]
      (fun n => n == "T2" || n == "T5") ["T1", "T2", "T3", "T4", "T5"] rfl
    simpa using h
  · exact ((conflict_detection_complete.2) fiveNamesWorkspaceDoc emptyWorkspaceDoc
      (fun n => n == "T2" || n == "T5") (fun _ => false) ["T2", "T5"] []
      (by rfl) (by rfl) (by simp)).1
  · exact ((conflict_detection_complete.2) fiveNamesWorkspaceDoc emptyWorkspaceDoc
      (fun n => n == "T2" || n == "T5") (fun _ => false) ["T2", "T5"] []
      (by rfl) (by rfl) (by simp)).2 "T2" (by simp)

/-! ## C7: validation of non-positive tolerances -/

/-- C7 counterexample: an XY tolerance parameter of exactly `0` does not
take the error path — the accessor substitutes the spatial reference's own
(positive) `XYTolerance`, validation passes, and both imports are
attempted. -/
theorem xy_zero_validates_counterexample :
    paramsZeroXY.xyTolerance = some 0 ∧
    validateInput paramsZeroXY = .ok () ∧
    start paramsZeroXY emptyWorkspaceDoc emptyWorkspaceDoc (fun _ => false) (fun _ => false)
      false = some ([RunAction.importUpdmWorkspace, RunAction.importLrsWorkspace], .ok ()) :=
  ⟨rfl, rfl, rfl⟩

/-- C7 (amended): when the effective XY tolerance — the parameter, or the
spatial reference's own XYTolerance substituted for an unset or zero
parameter — is not positive (in particular for every negative parameter
value), and the earlier GDB / spatial-reference checks pass, `validateInput`
raises the XY-tolerance error and the run issues no external call: nothing
is deleted and no import is attempted. -/
theorem validateInput_rejects_nonpositive_xy (p : Params) (v : ℚ)
    (hgdb : p.outputGDB ≠ "") (hsr : p.spatialReference.isSome = true)
    (hxy : getXYToleranceParam p = some v) (hv : v ≤ 0) :
    validateInput p = .error "Please provide an XY Tolerance that is greater than 0." ∧
    ∀ (updm lrs : XElem) (g gd : String → Bool) (ow : Bool),
      start p updm lrs g gd ow =
        some ([], .error "Please provide an XY Tolerance that is greater than 0.") := by
  obtain ⟨sr, hsr2⟩ := Option.isSome_iff_exists.mp hsr
  have hmu : ¬ getMUnitsParamAsText p = "" := by
    unfold getMUnitsParamAsText
    by_cases h : p.mUnits = ""
    · rw [if_pos h]
      intro hc
      exact absurd hc (by decide)
    · rw [if_neg h]
      exact h
  have hval : validateInput p =
      .error "Please provide an XY Tolerance that is greater than 0." := by
    unfold validateInput
    rw [if_neg hgdb]
    simp only [hsr2, if_neg hmu, hxy, if_pos hv]
  refine ⟨hval, fun updm lrs g gd ow => ?_⟩
  unfold start
  rw [hval]

/-- C7 witness: a negative XY tolerance parameter triggers the tolerance
error and the run performs no external call. -/
theorem validateInput_rejects_nonpositive_xy_witness :
    paramsNegXY.outputGDB ≠ "" ∧ paramsNegXY.spatialReference.isSome = true ∧
    getXYToleranceParam paramsNegXY = some (-1) ∧ ((-1 : ℚ) ≤ 0) ∧
    validateInput paramsNegXY =
      .error "Please provide an XY Tolerance that is greater than 0." ∧
    start paramsNegXY emptyWorkspaceDoc emptyWorkspaceDoc (fun _ => false) (fun _ => false)
      false = some ([], .error "Please provide an XY Tolerance that is greater than 0.") := by
  have hxy : getXYToleranceParam paramsNegXY = some (-1) := by
    norm_num [getXYToleranceParam, paramsNegXY]
  have h := validateInput_rejects_nonpositive_xy paramsNegXY (-1)
    (by decide) rfl hxy (by norm_num)
  exact ⟨by decide, rfl, hxy, by norm_num, h.1,
    h.2 emptyWorkspaceDoc emptyWorkspaceDoc (fun _ => false) (fun _ => false) false⟩

/-! ## C8: eager detection of user input errors -/

/-- C8 counterexample: an invalid (non-empty, unrecognized) measure-unit
string passes `validateInput`; with the overwrite switch on, `checkNames`
deletes the conflicting dataset, and only afterwards does the unit
conversion raise — so the error is neither detected by the validation pass
nor raised before the geodatabase is mutated. -/
theorem invalid_units_counterexample :
    validateInput paramsBadUnits = .ok () ∧
    start paramsBadUnits conflictWorkspaceDoc emptyWorkspaceDoc
      (fun n => n == "P_Existing") (fun _ => false) true =
      some ([RunAction.deleteDataset "P_Existing"],
        .error "Cannot calculate m tolerance and resolution.") :=
  ⟨rfl, rfl⟩

theorem checkNames_acts_deletes (updm lrs : XElem) (g gd : String → Bool) (ow : Bool)
    (acts : List RunAction) (res : Except String Unit)
    (h : checkNames updm lrs g gd ow = some (acts, res)) :
    ∀ a ∈ acts, (∃ n, a = RunAction.deleteDataset n) ∨ (∃ n, a = RunAction.deleteDomain n) := by
  unfold checkNames at h
  cases hds : checkDatasetNames [updm, lrs] g with
  | none =>
    simp only [hds] at h
    exact Option.noConfusion h
  | some ds =>
    simp only [hds] at h
    cases hdm : checkDomainNames [updm, lrs] gd with
    | none =>
      simp only [hdm] at h
      exact Option.noConfusion h
    | some dm =>
      simp only [hdm] at h
      by_cases hcond : ds.length > 0 ∨ dm.length > 0
      · rw [if_pos hcond] at h
        cases ow with
        | false =>
          simp only [Bool.false_eq_true, if_false, Option.some.injEq, Prod.mk.injEq] at h
          obtain ⟨ha, _⟩ := h
          subst ha
          intro a ha2
          exact absurd ha2 (by simp)
        | true =>
          simp only [if_true, Option.some.injEq, Prod.mk.injEq] at h
          obtain ⟨ha, _⟩ := h
          subst ha
          intro a ha2
          rcases List.mem_append.mp ha2 with hmem | hmem
          · obtain ⟨n, _, hn⟩ := List.mem_map.mp hmem
            exact Or.inl ⟨n, hn.symm⟩
          · obtain ⟨n, _, hn⟩ := List.mem_map.mp hmem
            exact Or.inr ⟨n, hn.symm⟩
      · rw [if_neg hcond] at h
        simp only [Option.some.injEq, Prod.mk.injEq] at h
        obtain ⟨ha, _⟩ := h
        subst ha
        intro a ha2
        exact absurd ha2 (by simp)

/-- C8 (amended): inputs that the validation pass does check — empty GDB
path, missing spatial reference, non-positive effective tolerances, empty
or unrecognized network-mode string — abort the run before any external
call, with an empty action trace.  An invalid (non-empty, unrecognized)
measure-unit string, however, is not caught by validation: it aborts the
run from the unit conversion during spatial-reference patching, after any
overwrite-mode deletions made by `checkNames`, though still before
either import call. -/
theorem validation_errors_precede_mutation :
    (∀ (p : Params) (updm lrs : XElem) (g gd : String → Bool) (ow : Bool) (e : String),
      validateInput p = .error e → start p updm lrs g gd ow = some ([], .error e)) ∧
    (∀ (p : Params) (updm lrs : XElem) (g gd : String → Bool) (ow : Bool)
      (acts : List RunAction) (e : String),
      validateInput p = .ok () → checkNames updm lrs g gd ow = some (acts, .ok ()) →
      mToleranceCalc p = some (.error e) →
      start p updm lrs g gd ow = some (acts, .error e) ∧
      RunAction.importUpdmWorkspace ∉ acts ∧ RunAction.importLrsWorkspace ∉ acts) := by
  constructor
  · intro p updm lrs g gd ow e h
    unfold start
    rw [h]
  · intro p updm lrs g gd ow acts e hv hc hm
    refine ⟨?_, ?_, ?_⟩
    · unfold start
      simp only [hv, hc, hm]
    · intro hmem
      rcases checkNames_acts_deletes updm lrs g gd ow acts (.ok ()) hc _ hmem with
        ⟨n, hn⟩ | ⟨n, hn⟩ <;> exact RunAction.noConfusion hn
    · intro hmem
      rcases checkNames_acts_deletes updm lrs g gd ow acts (.ok ()) hc _ hmem with
        ⟨n, hn⟩ | ⟨n, hn⟩ <;> exact RunAction.noConfusion hn

/-- C8 witness: instantiating the amended theorem on the bad-units run. -/
theorem validation_errors_precede_mutation_witness :
    start paramsBadUnits conflictWorkspaceDoc emptyWorkspaceDoc
      (fun n => n == "P_Existing") (fun _ => false) true =
      some ([RunAction.deleteDataset "P_Existing"],
        .error "Cannot calculate m tolerance and resolution.") ∧
    RunAction.importUpdmWorkspace ∉ [RunAction.deleteDataset "P_Existing"] ∧
    RunAction.importLrsWorkspace ∉ [RunAction.deleteDataset "P_Existing"] :=
  validation_errors_precede_mutation.2 paramsBadUnits conflictWorkspaceDoc emptyWorkspaceDoc
    (fun n => n == "P_Existing") (fun _ => false) true
    [RunAction.deleteDataset "P_Existing"] "Cannot calculate m tolerance and resolution."
    rfl rfl rfl

/-! ## C10: implicit parameter defaults -/

/-- C10: the parameter accessors substitute defaults for absent or zero
inputs before validation sees them — empty measure unit ⇒ `"FEET"`, empty
event-registration network ⇒ `"ENGINEERING"`, empty or zero XY (resp. Z)
tolerance ⇒ the spatial reference's own tolerance, empty register-pipe-
system flag ⇒ `False` — so `validateInput` accepts a run whose only
omissions are these defaultable parameters, provided the fallback
tolerances are positive. -/
theorem parameter_default_fallbacks (p : Params) (sr : SpatialReference)
    (hsr : p.spatialReference = some sr) :
    (p.mUnits = "" → getMUnitsParam p = "FEET" ∧ getMUnitsParamAsText p = "FEET") ∧
    (p.eventRegistrationNetwork = "" →
      getEventRegistrationNetworkParamAsText p = "ENGINEERING") ∧
    (p.xyTolerance = none ∨ p.xyTolerance = some 0 →
      getXYToleranceParam p = some sr.xyTolerance) ∧
    (p.zTolerance = none ∨ p.zTolerance = some 0 →
      getZToleranceParam p = some sr.zTolerance) ∧
    (p.registerPipeSystem = none → getRegisterPipeSystemParam p = false) ∧
    (p.outputGDB ≠ "" → p.mUnits = "" → p.eventRegistrationNetwork = "" →
      (p.xyTolerance = none ∨ p.xyTolerance = some 0) →
      (p.zTolerance = none ∨ p.zTolerance = some 0) →
      0 < sr.xyTolerance → 0 < sr.zTolerance → validateInput p = .ok ()) := by
  have hxy : p.xyTolerance = none ∨ p.xyTolerance = some 0 →
      getXYToleranceParam p = some sr.xyTolerance := by
    intro h
    rcases h with h | h <;> simp [getXYToleranceParam, h, hsr]
  have hz : p.zTolerance = none ∨ p.zTolerance = some 0 →
      getZToleranceParam p = some sr.zTolerance := by
    intro h
    rcases h with h | h <;> simp [getZToleranceParam, h, hsr]
  refine ⟨?_, ?_, hxy, hz, ?_, ?_⟩
  · intro h
    unfold getMUnitsParam getMUnitsParamAsText
    rw [if_pos h]
    exact ⟨rfl, rfl⟩
  · intro h
    unfold getEventRegistrationNetworkParamAsText
    rw [if_pos h]
  · intro h
    unfold getRegisterPipeSystemParam
    rw [h]
    rfl
  · intro hgdb hmu hev hxyp hzp hx0 hz0
    unfold validateInput
    rw [if_neg hgdb]
    have hmu2 : getMUnitsParamAsText p = "FEET" := by
      unfold getMUnitsParamAsText
      rw [if_pos hmu]
    have hev2 : getEventRegistrationNetworkParamAsText p = "ENGINEERING" := by
      unfold getEventRegistrationNetworkParamAsText
      rw [if_pos hev]
    simp only [hsr, hmu2, hxy hxyp, hz hzp, hev2]
    rw [if_neg (by decide : ¬ ("FEET" : String) = ""),
      if_neg (not_le.mpr hx0), if_neg (not_le.mpr hz0),
      if_neg (by decide : ¬ ("ENGINEERING" : String) = "")]
    rfl

/-- C10 witness: a run whose defaultable parameters are all empty
validates, with the documented fallback values. -/
theorem parameter_default_fallbacks_witness :
    paramsAllDefaults.spatialReference = some srDefault ∧
    getMUnitsParam paramsAllDefaults = "FEET" ∧
    getEventRegistrationNetworkParamAsText paramsAllDefaults = "ENGINEERING" ∧
    getXYToleranceParam paramsAllDefaults = some srDefault.xyTolerance ∧
    getZToleranceParam paramsAllDefaults = some srDefault.zTolerance ∧
    getRegisterPipeSystemParam paramsAllDefaults = false ∧
    validateInput paramsAllDefaults = .ok () := by
  have h := parameter_default_fallbacks paramsAllDefaults srDefault rfl
  exact ⟨rfl, (h.1 rfl).1, h.2.1 rfl, h.2.2.1 (Or.inl rfl), h.2.2.2.1 (Or.inl rfl),
    h.2.2.2.2.1 rfl,
    h.2.2.2.2.2 (by decide) rfl rfl (Or.inl rfl) (Or.inl rfl)
      (by norm_num [srDefault]) (by norm_num [srDefault])⟩

/-! ## C3 infrastructure: preorder membership and identity lemmas -/

theorem self_mem_allElems (e : XElem) : e ∈ allElems e := by
  cases e with
  | node i t a x cs => exact List.mem_cons_self _ _

theorem mem_allElemsL_iff (d : XElem) : ∀ (cs : List XElem),
    d ∈ allElemsL cs ↔ ∃ c ∈ cs, d ∈ allElems c := by
  intro cs
  induction cs with
  | nil => simp [allElemsL]
  | cons c cs ih =>
    simp only [allElemsL, List.mem_append, ih, List.mem_cons]
    constructor
    · rintro (h | ⟨c2, hc2, hd⟩)
      · exact ⟨c, Or.inl rfl, h⟩
      · exact ⟨c2, Or.inr hc2, hd⟩
    · rintro ⟨c2, h | h, hd⟩
      · subst h; exact Or.inl hd
      · exact Or.inr ⟨c2, h, hd⟩

mutual

theorem allElems_trans : ∀ (e d d2 : XElem), d ∈ allElems e → d2 ∈ allElems d →
    d2 ∈ allElems e
  | .node i t a x cs, d, d2, hd, hd2 => by
    rcases List.mem_cons.mp hd with h | h
    · subst h; exact hd2
    · exact List.mem_cons.mpr (Or.inr (allElems_transL cs d d2 h hd2))

theorem allElems_transL : ∀ (cs : List XElem) (d d2 : XElem), d ∈ allElemsL cs →
    d2 ∈ allElems d → d2 ∈ allElemsL cs
  | c :: cs, d, d2, hd, hd2 => by
    rcases List.mem_append.mp hd with h | h
    · exact List.mem_append.mpr (Or.inl (allElems_trans c d d2 h hd2))
    · exact List.mem_append.mpr (Or.inr (allElems_transL cs d d2 h hd2))

end

mutual

theorem allIds_eq_map : ∀ (e : XElem), allIds e = (allElems e).map XElem.eid
  | .node i t a x cs => by
    simp only [allIds, allElems, List.map_cons]
    exact congrArg (_ :: ·) (allIds_eq_mapL cs)

theorem allIds_eq_mapL : ∀ (cs : List XElem), allIdsL cs = (allElemsL cs).map XElem.eid
  | [] => rfl
  | c :: cs => by
    simp only [allIdsL, allElemsL, List.map_append]
    rw [allIds_eq_map c, allIds_eq_mapL cs]

end

mutual

theorem srIds_eq_map : ∀ (e : XElem),
    srIds e = ((allElems e).filter (fun d => d.tag == "SpatialReference")).map XElem.eid
  | .node i t a x cs => by
    simp only [srIds, allElems, List.filter_cons]
    by_cases h : t = "SpatialReference"
    · have hb : (XElem.tag (.node i t a x cs) == "SpatialReference") = true := by
        simp [XElem.tag, h]
      rw [if_pos h, hb]
      simp only [List.map_cons]
      exact congrArg (_ :: ·) (srIds_eq_mapL cs)
    · have hb : (XElem.tag (.node i t a x cs) == "SpatialReference") = false := by
        simp [XElem.tag, h]
      rw [if_neg h, hb]
      exact srIds_eq_mapL cs

theorem srIds_eq_mapL : ∀ (cs : List XElem),
    srIdsL cs = ((allElemsL cs).filter (fun d => d.tag == "SpatialReference")).map XElem.eid
  | [] => rfl
  | c :: cs => by
    simp only [srIdsL, allElemsL, List.filter_append, List.map_append]
    rw [srIds_eq_map c, srIds_eq_mapL cs]

end

theorem mem_allIds_iff (x : Nat) (e : XElem) :
    x ∈ allIds e ↔ ∃ d ∈ allElems e, d.eid = x := by
  rw [allIds_eq_map]
  simp [List.mem_map]

theorem mem_allIdsL_iff (x : Nat) (cs : List XElem) :
    x ∈ allIdsL cs ↔ ∃ d ∈ allElemsL cs, d.eid = x := by
  rw [allIds_eq_mapL]
  simp [List.mem_map]

theorem mem_srIds_iff (x : Nat) (e : XElem) :
    x ∈ srIds e ↔ ∃ d ∈ allElems e, d.tag = "SpatialReference" ∧ d.eid = x := by
  rw [srIds_eq_map]
  simp [List.mem_map, List.mem_filter]
  constructor
  · rintro ⟨d, ⟨hd, ht⟩, he⟩
    exact ⟨d, hd, by simpa using ht, he⟩
  · rintro ⟨d, hd, ht, he⟩
    exact ⟨d, ⟨hd, by simpa using ht⟩, he⟩

theorem srIds_sublist (e : XElem) : List.Sublist (srIds e) (allIds e) := by
  rw [srIds_eq_map, allIds_eq_map]
  exact (List.filter_sublist _).map XElem.eid

theorem eid_inj {e : XElem} (hnd : (allIds e).Nodup) {d1 d2 : XElem}
    (h1 : d1 ∈ allElems e) (h2 : d2 ∈ allElems e) (h : d1.eid = d2.eid) : d1 = d2 := by
  rw [allIds_eq_map] at hnd
  exact List.inj_on_of_nodup_map hnd h1 h2 h

theorem mem_child_allElems {e d ch : XElem} (hd : d ∈ allElems e) (hch : ch ∈ d.children) :
    ch ∈ allElems e := by
  refine allElems_trans e d ch hd ?_
  cases d with
  | node i t a x cs =>
    exact List.mem_cons.mpr (Or.inr ((mem_allElemsL_iff ch cs).mpr
      ⟨ch, hch, self_mem_allElems ch⟩))

theorem mem_srIdsL_of_sr {cs : List XElem} {ch : XElem} (hch : ch ∈ allElemsL cs)
    (ht : ch.tag = "SpatialReference") : ch.eid ∈ srIdsL cs := by
  rw [srIds_eq_mapL]
  exact List.mem_map.mpr ⟨ch, List.mem_filter.mpr ⟨hch, by simp [ht]⟩, rfl⟩

/-! ## C3 infrastructure: behaviour of one replacement step -/

mutual

theorem rc_not_mem : ∀ (p sr : Nat) (new e : XElem), p ∉ allIds e →
    rc p sr new e = some e
  | p, sr, new, .node i t a x cs, hp => by
    have hip : ¬ i = p := by
      intro h
      exact hp (h ▸ List.mem_cons_self _ _)
    have hcs : p ∉ allIdsL cs := fun hc => hp (List.mem_cons.mpr (Or.inr hc))
    simp only [rc, if_neg hip, rc_not_memL p sr new cs hcs]

theorem rc_not_memL : ∀ (p sr : Nat) (new : XElem) (cs : List XElem), p ∉ allIdsL cs →
    rcL p sr new cs = some cs
  | _, _, _, [], _ => rfl
  | p, sr, new, c :: cs, hp => by
    have hc : p ∉ allIds c := fun h => hp (List.mem_append.mpr (Or.inl h))
    have hcs : p ∉ allIdsL cs := fun h => hp (List.mem_append.mpr (Or.inr h))
    simp only [rcL, rc_not_mem p sr new c hc, rc_not_memL p sr new cs hcs]

end

mutual

theorem repIn_extend : ∀ (new : XElem) (S : List Nat) (sr : Nat) (e : XElem),
    sr ∉ allIds e → repIn new (S ++ [sr]) e = repIn new S e
  | new, S, sr, .node i t a x cs, hsr => by
    have hisr : i ≠ sr := by
      intro h
      exact hsr (h ▸ List.mem_cons_self _ _)
    have hmem : (i ∈ S ++ [sr]) ↔ i ∈ S := by
      simp [List.mem_append, hisr]
    have hcs : sr ∉ allIdsL cs := fun hc => hsr (List.mem_cons.mpr (Or.inr hc))
    simp only [repIn, hmem, repIn_extendL new S sr cs hcs]

theorem repIn_extendL : ∀ (new : XElem) (S : List Nat) (sr : Nat) (cs : List XElem),
    sr ∉ allIdsL cs → repInL new (S ++ [sr]) cs = repInL new S cs
  | _, _, _, [], _ => rfl
  | new, S, sr, c :: cs, hsr => by
    have hc : sr ∉ allIds c := fun h => hsr (List.mem_append.mpr (Or.inl h))
    have hcs : sr ∉ allIdsL cs := fun h => hsr (List.mem_append.mpr (Or.inr h))
    simp only [repInL, repIn_extend new S sr c hc, repIn_extendL new S sr cs hcs]

end

mutual

theorem repIn_not_mem : ∀ (new : XElem) (S : List Nat) (p : Nat) (e : XElem),
    p ∉ allIds e → p ∉ allIds new → p ∉ allIds (repIn new S e)
  | new, S, p, .node i t a x cs, hpe, hpn => by
    have hip : i ≠ p := by
      intro h
      exact hpe (h ▸ List.mem_cons_self _ _)
    have hcs : p ∉ allIdsL cs := fun hc => hpe (List.mem_cons.mpr (Or.inr hc))
    simp only [repIn]
    by_cases hc : t = "SpatialReference" ∧ i ∈ S
    · rw [if_pos hc]
      exact hpn
    · rw [if_neg hc]
      intro hmem
      rcases List.mem_cons.mp hmem with h | h
      · exact hip h.symm
      · exact repIn_not_memL new S p cs hcs hpn h

theorem repIn_not_memL : ∀ (new : XElem) (S : List Nat) (p : Nat) (cs : List XElem),
    p ∉ allIdsL cs → p ∉ allIds new → p ∉ allIdsL (repInL new S cs)
  | _, _, _, [], h, _ => h
  | new, S, p, c :: cs, hpe, hpn => by
    have hc : p ∉ allIds c := fun h => hpe (List.mem_append.mpr (Or.inl h))
    have hcs : p ∉ allIdsL cs := fun h => hpe (List.mem_append.mpr (Or.inr h))
    intro hmem
    rcases List.mem_append.mp hmem with h | h
    · exact repIn_not_mem new S p c hc hpn h
    · exact repIn_not_memL new S p cs hcs hpn h

end

/-! ## C3 infrastructure: the child→parent map -/

theorem lookupTbl_append_some {κ α : Type} [DecidableEq κ] (k : κ) {v : α} :
    ∀ (l1 l2 : List (κ × α)), lookupTbl k l1 = some v →
      lookupTbl k (l1 ++ l2) = some v
  | [], _, h => Option.noConfusion h
  | (a, w) :: l1, l2, h => by
    simp only [lookupTbl] at h ⊢
    by_cases ha : a = k
    · rw [if_pos ha] at h ⊢
      exact h
    · rw [if_neg ha] at h ⊢
      exact lookupTbl_append_some k l1 l2 h

theorem lookupTbl_append_none {κ α : Type} [DecidableEq κ] (k : κ) :
    ∀ (l1 l2 : List (κ × α)), lookupTbl k l1 = none →
      lookupTbl k (l1 ++ l2) = lookupTbl k l2
  | [], _, _ => rfl
  | (a, w) :: l1, l2, h => by
    simp only [lookupTbl] at h ⊢
    by_cases ha : a = k
    · rw [if_pos ha] at h
      exact Option.noConfusion h
    · rw [if_neg ha] at h ⊢
      exact lookupTbl_append_none k l1 l2 h

theorem lookupTbl_eq_none {κ α : Type} [DecidableEq κ] (k : κ) :
    ∀ (l : List (κ × α)), (∀ q ∈ l, q.1 ≠ k) → lookupTbl k l = none
  | [], _ => rfl
  | (a, w) :: l, h => by
    simp only [lookupTbl]
    rw [if_neg (h (a, w) (List.mem_cons_self _ _))]
    exact lookupTbl_eq_none k l (fun q hq => h q (List.mem_cons.mpr (Or.inr hq)))

theorem lookup_childPairs (i : Nat) : ∀ (cs : List XElem) (c : Nat),
    c ∈ cs.map XElem.eid →
    lookupTbl c (cs.map fun ch => (ch.eid, i)) = some i
  | [], c, h => absurd h (by simp)
  | ch :: cs, c, h => by
    simp only [List.map_cons, lookupTbl]
    by_cases he : ch.eid = c
    · rw [if_pos he]
    · rw [if_neg he]
      have h2 : c ∈ cs.map XElem.eid := by
        rcases List.mem_cons.mp h with h3 | h3
        · exact absurd h3.symm he
        · exact h3
      exact lookup_childPairs i cs c h2

theorem childPairs_keys (i : Nat) (cs : List XElem) :
    ∀ q ∈ cs.map (fun ch => (ch.eid, i)), q.1 ∈ cs.map XElem.eid := by
  intro q hq
  obtain ⟨ch, hch, hq2⟩ := List.mem_map.mp hq
  subst hq2
  exact List.mem_map.mpr ⟨ch, hch, rfl⟩

theorem parentPairs_keys (e : XElem) : ∀ q ∈ parentPairs e, q.1 ∈ allIds e := by
  intro q hq
  unfold parentPairs at hq
  obtain ⟨P, hP, hq2⟩ := List.mem_flatMap.mp hq
  obtain ⟨ch, hch, hq3⟩ := List.mem_map.mp hq2
  subst hq3
  exact (mem_allIds_iff _ e).mpr ⟨ch, mem_child_allElems hP hch, rfl⟩

theorem parentPairs_node (i : Nat) (t : String) (a : List (String × String))
    (x : Option String) (cs : List XElem) :
    parentPairs (.node i t a x cs) =
      (cs.map fun ch => (ch.eid, i)) ++ cs.flatMap parentPairs := by
  unfold parentPairs
  simp only [allElems, List.flatMap_cons, XElem.children, XElem.eid]
  congr 1
  induction cs with
  | nil => rfl
  | cons c cs ih =>
    simp only [allElemsL, List.flatMap_append, List.flatMap_cons]
    rw [ih]

mutual

theorem parent_lookup : ∀ (e : XElem), (allIds e).Nodup →
    ∀ c ∈ allIdsL e.children,
    ∃ P, P ∈ allElems e ∧ (∃ ch ∈ P.children, ch.eid = c) ∧
      lookupTbl c (parentPairs e) = some P.eid
  | .node i t a x cs, hnd, c, hc => by
    rw [parentPairs_node]
    replace hc : c ∈ allIdsL cs := hc
    by_cases hdir : c ∈ cs.map XElem.eid
    · refine ⟨.node i t a x cs, self_mem_allElems _, ?_, ?_⟩
      · obtain ⟨ch, hch, he⟩ := List.mem_map.mp hdir
        exact ⟨ch, hch, he⟩
      · exact lookupTbl_append_some c _ _ (lookup_childPairs i cs c hdir)
    · have hnd2 : (allIdsL cs).Nodup := (List.nodup_cons.mp hnd).2
      obtain ⟨P, hP, hch, hlk⟩ := parent_lookupL cs hnd2 c hc hdir
      refine ⟨P, List.mem_cons.mpr (Or.inr hP), hch, ?_⟩
      rw [lookupTbl_append_none c _ _ ?_, hlk]
      exact lookupTbl_eq_none c _
        (fun q hq he => hdir (he ▸ childPairs_keys i cs q hq))

theorem parent_lookupL : ∀ (cs : List XElem), (allIdsL cs).Nodup →
    ∀ c ∈ allIdsL cs, c ∉ cs.map XElem.eid →
    ∃ P, P ∈ allElemsL cs ∧ (∃ ch ∈ P.children, ch.eid = c) ∧
      lookupTbl c (cs.flatMap parentPairs) = some P.eid
  | cj :: rest, hnd, c, hc, hdir => by
    simp only [List.flatMap_cons]
    have hnd' : (allIds cj ++ allIdsL rest).Nodup := hnd
    have hnd1 : (allIds cj).Nodup := (List.nodup_append.mp hnd').1
    have hndr : (allIdsL rest).Nodup := (List.nodup_append.mp hnd').2.1
    have hdisj := (List.nodup_append.mp hnd').2.2
    rcases List.mem_append.mp hc with h | h
    · have hcne : ¬ c = cj.eid := by
        intro he
        exact hdir (List.mem_map.mpr ⟨cj, List.mem_cons_self _ _, he.symm⟩)
      have hc2 : c ∈ allIdsL cj.children := by
        cases cj with
        | node i2 t2 a2 x2 cs2 =>
          rcases List.mem_cons.mp h with h2 | h2
          · exact absurd h2 hcne
          · exact h2
      obtain ⟨P, hP, hch, hlk⟩ := parent_lookup cj hnd1 c hc2
      refine ⟨P, List.mem_append.mpr (Or.inl hP), hch, ?_⟩
      exact lookupTbl_append_some c _ _ hlk
    · have hcnotin : c ∉ allIds cj := fun hcc => hdisj hcc h
      have hfirst : lookupTbl c (parentPairs cj) = none :=
        lookupTbl_eq_none c _ (fun q hq he => hcnotin (he ▸ parentPairs_keys cj q hq))
      have hdir2 : c ∉ rest.map XElem.eid := by
        intro h2
        exact hdir (by simpa using Or.inr h2)
      obtain ⟨P, hP, hch, hlk⟩ := parent_lookupL rest hndr c h hdir2
      refine ⟨P, List.mem_append.mpr (Or.inr hP), hch, ?_⟩
      rw [lookupTbl_append_none c _ _ hfirst, hlk]

end

/-! ## C3 infrastructure: the in-place child replacement -/

theorem repIn_eid (new : XElem) (S : List Nat) (c : XElem) :
    (repIn new S c).eid =
      if c.tag = "SpatialReference" ∧ c.eid ∈ S then new.eid else c.eid := by
  cases c with
  | node i t a x cs =>
    show (repIn new S (.node i t a x cs)).eid = _
    simp only [repIn, XElem.tag, XElem.eid]
    by_cases h : t = "SpatialReference" ∧ i ∈ S
    · rw [if_pos h, if_pos h]
    · rw [if_neg h, if_neg h]

theorem pyInsert_zero {α : Type} (x : α) (l : List α) : pyInsert 0 x l = x :: l := by
  cases l <;> rfl

theorem idxOfId_some_mem (sr : Nat) : ∀ (cs : List XElem) (j : Nat),
    idxOfId sr cs = some j → sr ∈ cs.map XElem.eid
  | [], j, h => Option.noConfusion h
  | c :: cs, j, h => by
    simp only [idxOfId] at h
    by_cases he : c.eid = sr
    · exact List.mem_cons.mpr (Or.inl he.symm)
    · rw [if_neg he] at h
      obtain ⟨j2, hj2, _⟩ := Option.map_eq_some'.mp h
      exact List.mem_cons.mpr (Or.inr (idxOfId_some_mem sr cs j2 hj2))

theorem idxOfId_isSome (sr : Nat) : ∀ (cs : List XElem), sr ∈ cs.map XElem.eid →
    ∃ j, idxOfId sr cs = some j
  | [], h => absurd h (by simp)
  | c :: cs, h => by
    simp only [idxOfId]
    by_cases he : c.eid = sr
    · exact ⟨0, by rw [if_pos he]⟩
    · rw [if_neg he]
      have h2 : sr ∈ cs.map XElem.eid := by
        rcases List.mem_cons.mp h with h3 | h3
        · exact absurd h3.symm he
        · exact h3
      obtain ⟨j, hj⟩ := idxOfId_isSome sr cs h2
      exact ⟨j + 1, by rw [hj]; rfl⟩

theorem mem_allIdsL_of_mem_map_eid (sr : Nat) (cs : List XElem)
    (h : sr ∈ cs.map XElem.eid) : sr ∈ allIdsL cs := by
  obtain ⟨ck, hck, he⟩ := List.mem_map.mp h
  refine (mem_allIdsL_iff sr cs).mpr ⟨ck, ?_, he⟩
  exact (mem_allElemsL_iff ck cs).mpr ⟨ck, hck, self_mem_allElems ck⟩

theorem idxOfId_repInL (sr : Nat) (new : XElem) (S : List Nat) (hS : sr ∉ S)
    (hnew : new.eid ≠ sr) : ∀ (cs : List XElem),
    idxOfId sr (repInL new S cs) = idxOfId sr cs
  | [] => rfl
  | c :: cs => by
    simp only [repInL, idxOfId, repIn_eid]
    by_cases hrep : c.tag = "SpatialReference" ∧ c.eid ∈ S
    · have hce : ¬ c.eid = sr := fun he => hS (he ▸ hrep.2)
      rw [if_pos hrep, if_neg hnew, if_neg hce, idxOfId_repInL sr new S hS hnew cs]
    · rw [if_neg hrep]
      by_cases hce : c.eid = sr
      · rw [if_pos hce, if_pos hce]
      · rw [if_neg hce, if_neg hce, idxOfId_repInL sr new S hS hnew cs]

theorem set_repInL (sr : Nat) (new : XElem) (S : List Nat) (hS : sr ∉ S)
    (hnewtag : new.tag = "SpatialReference") (hnew : new.eid ≠ sr) :
    ∀ (cs : List XElem) (j : Nat),
    (allIdsL cs).Nodup →
    (∀ ck ∈ cs, ck.eid = sr → ck.tag = "SpatialReference") →
    idxOfId sr cs = some j →
    pyInsert j new ((repInL new S cs).eraseIdx j) = repInL new (S ++ [sr]) cs
  | [], j, _, _, hj => absurd hj (by simp [idxOfId])
  | c :: cs, j, hnd, htag, hj => by
    have hnd' : (allIds c ++ allIdsL cs).Nodup := hnd
    have hdisj := (List.nodup_append.mp hnd').2.2
    simp only [idxOfId] at hj
    by_cases he : c.eid = sr
    · rw [if_pos he] at hj
      have hj0 : j = 0 := by
        injection hj with hj
        exact hj.symm
      subst hj0
      have hsrcs : sr ∉ allIdsL cs := by
        intro hmem
        refine hdisj ?_ hmem
        cases c with
        | node i2 t2 a2 x2 cs2 => exact he ▸ List.mem_cons_self _ _
      show pyInsert 0 new ((repIn new S c :: repInL new S cs).eraseIdx 0) = _
      rw [List.eraseIdx_cons_zero, pyInsert_zero]
      have hcrep : repIn new (S ++ [sr]) c = new := by
        cases c with
        | node i2 t2 a2 x2 cs2 =>
          have ht2 : t2 = "SpatialReference" := htag _ (List.mem_cons_self _ _) he
          have hi2 : i2 = sr := he
          simp only [repIn]
          rw [if_pos ⟨ht2, by rw [hi2]; simp⟩]
      show _ = repIn new (S ++ [sr]) c :: repInL new (S ++ [sr]) cs
      rw [hcrep, repIn_extendL new S sr cs hsrcs]
    · rw [if_neg he] at hj
      obtain ⟨j2, hj2, hjeq⟩ := Option.map_eq_some'.mp hj
      subst hjeq
      have hsrcs : sr ∈ allIdsL cs :=
        mem_allIdsL_of_mem_map_eid sr cs (idxOfId_some_mem sr cs j2 hj2)
      have hsrc : sr ∉ allIds c := fun hmem => hdisj hmem hsrcs
      show pyInsert (j2 + 1) new ((repIn new S c :: repInL new S cs).eraseIdx (j2 + 1)) = _
      rw [List.eraseIdx_cons_succ]
      show repIn new S c :: pyInsert j2 new ((repInL new S cs).eraseIdx j2) =
        repIn new (S ++ [sr]) c :: repInL new (S ++ [sr]) cs
      rw [set_repInL sr new S hS hnewtag hnew cs j2 (List.nodup_append.mp hnd').2.1
        (fun ck hck => htag ck (List.mem_cons.mpr (Or.inr hck))) hj2,
        repIn_extend new S sr c hsrc]

/-! ## C3: one loop iteration advances the partial replacement -/

theorem new_eid_mem (new : XElem) : new.eid ∈ allIds new := by
  cases new with
  | node i t a x cs => exact List.mem_cons_self _ _

mutual

theorem rc_repIn_hit : ∀ (p sr : Nat) (new : XElem) (S : List Nat) (e : XElem),
    (allIds e).Nodup →
    p ∈ allIds e →
    (∀ d ∈ allElems e, d.eid = p → d.tag ≠ "SpatialReference" ∧
      ∃ ch ∈ d.children, ch.eid = sr ∧ ch.tag = "SpatialReference") →
    (∀ d ∈ allElems e, d.tag = "SpatialReference" → p ∉ allIds d) →
    sr ∉ S → new.tag = "SpatialReference" → p ∉ allIds new → sr ∉ allIds new →
    rc p sr new (repIn new S e) = some (repIn new (S ++ [sr]) e)
  | p, sr, new, S, .node i t a x cs, hnd, hp, hP, hSR, hS, hnt, hpn, hsn => by
    have ht : t ≠ "SpatialReference" := by
      intro heq
      exact hSR (.node i t a x cs) (self_mem_allElems _) heq hp
    have hcond : ¬ (t = "SpatialReference" ∧ i ∈ S) := fun hc => ht hc.1
    have hcond2 : ¬ (t = "SpatialReference" ∧ i ∈ S ++ [sr]) := fun hc => ht hc.1
    have hndcs : (allIdsL cs).Nodup := (List.nodup_cons.mp hnd).2
    have hnew_ne : new.eid ≠ sr := fun he => hsn (he ▸ new_eid_mem new)
    simp only [repIn]
    rw [if_neg hcond, if_neg hcond2]
    by_cases hip : i = p
    · obtain ⟨-, ch, hch, hche, hcht⟩ := hP (.node i t a x cs) (self_mem_allElems _) hip
      have htag : ∀ ck ∈ cs, ck.eid = sr → ck.tag = "SpatialReference" := by
        intro ck hck hcke
        have h1 : ck ∈ allElems (.node i t a x cs) :=
          mem_child_allElems (self_mem_allElems _) hck
        have h2 : ch ∈ allElems (.node i t a x cs) :=
          mem_child_allElems (self_mem_allElems _) hch
        have h3 : ck = ch := eid_inj hnd h1 h2 (by rw [hcke, hche])
        rw [h3]
        exact hcht
      obtain ⟨j, hj⟩ := idxOfId_isSome sr cs (List.mem_map.mpr ⟨ch, hch, hche⟩)
      simp only [rc, if_pos hip, idxOfId_repInL sr new S hS hnew_ne cs, hj]
      rw [set_repInL sr new S hS hnt hnew_ne cs j hndcs htag hj]
    · have hpcs : p ∈ allIdsL cs := by
        rcases List.mem_cons.mp hp with h | h
        · exact absurd h.symm hip
        · exact h
      simp only [rc, if_neg hip]
      rw [rc_repIn_hitL p sr new S cs hndcs hpcs
        (fun d hd => hP d (List.mem_cons.mpr (Or.inr hd)))
        (fun d hd => hSR d (List.mem_cons.mpr (Or.inr hd))) hS hnt hpn hsn]

theorem rc_repIn_hitL : ∀ (p sr : Nat) (new : XElem) (S : List Nat) (cs : List XElem),
    (allIdsL cs).Nodup →
    p ∈ allIdsL cs →
    (∀ d ∈ allElemsL cs, d.eid = p → d.tag ≠ "SpatialReference" ∧
      ∃ ch ∈ d.children, ch.eid = sr ∧ ch.tag = "SpatialReference") →
    (∀ d ∈ allElemsL cs, d.tag = "SpatialReference" → p ∉ allIds d) →
    sr ∉ S → new.tag = "SpatialReference" → p ∉ allIds new → sr ∉ allIds new →
    rcL p sr new (repInL new S cs) = some (repInL new (S ++ [sr]) cs)
  | p, sr, new, S, c :: rest, hnd, hp, hP, hSR, hS, hnt, hpn, hsn => by
    have hnd' : (allIds c ++ allIdsL rest).Nodup := hnd
    have hnd1 : (allIds c).Nodup := (List.nodup_append.mp hnd').1
    have hndr : (allIdsL rest).Nodup := (List.nodup_append.mp hnd').2.1
    have hdisj := (List.nodup_append.mp hnd').2.2
    have hliftc : ∀ d, d ∈ allElems c → d ∈ allElemsL (c :: rest) := by
      intro d hd
      exact (mem_allElemsL_iff d (c :: rest)).mpr ⟨c, List.mem_cons_self _ _, hd⟩
    have hliftr : ∀ d, d ∈ allElemsL rest → d ∈ allElemsL (c :: rest) := by
      intro d hd
      obtain ⟨c2, hc2, hd2⟩ := (mem_allElemsL_iff d rest).mp hd
      exact (mem_allElemsL_iff d (c :: rest)).mpr ⟨c2, List.mem_cons.mpr (Or.inr hc2), hd2⟩
    rcases List.mem_append.mp hp with hpc | hpr
    · obtain ⟨d, hd, hde⟩ := (mem_allIds_iff p c).mp hpc
      obtain ⟨-, ch, hch, hche, -⟩ := hP d (hliftc d hd) hde
      have hsrc : sr ∈ allIds c :=
        (mem_allIds_iff sr c).mpr ⟨ch, mem_child_allElems hd hch, hche⟩
      have hsrr : sr ∉ allIdsL rest := fun hmem => hdisj hsrc hmem
      have hpr2 : p ∉ allIdsL rest := fun hmem => hdisj hpc hmem
      show rcL p sr new (repIn new S c :: repInL new S rest) = _
      simp only [rcL]
      rw [rc_repIn_hit p sr new S c hnd1 hpc
        (fun d2 hd2 => hP d2 (hliftc d2 hd2))
        (fun d2 hd2 => hSR d2 (hliftc d2 hd2)) hS hnt hpn hsn,
        rc_not_memL p sr new (repInL new S rest)
          (repIn_not_memL new S p rest hpr2 hpn)]
      show some (repIn new (S ++ [sr]) c :: repInL new S rest) =
        some (repIn new (S ++ [sr]) c :: repInL new (S ++ [sr]) rest)
      rw [repIn_extendL new S sr rest hsrr]
    · obtain ⟨d, hd, hde⟩ := (mem_allIdsL_iff p rest).mp hpr
      obtain ⟨-, ch, hch, hche, -⟩ := hP d (hliftr d hd) hde
      have hsrr : sr ∈ allIdsL rest := by
        obtain ⟨c2, hc2, hd2⟩ := (mem_allElemsL_iff d rest).mp hd
        refine (mem_allIdsL_iff sr rest).mpr ⟨ch, ?_, hche⟩
        exact (mem_allElemsL_iff ch rest).mpr ⟨c2, hc2, mem_child_allElems hd2 hch⟩
      have hsrc : sr ∉ allIds c := fun hmem => hdisj hmem hsrr
      have hpc2 : p ∉ allIds c := fun hmem => hdisj hmem hpr
      show rcL p sr new (repIn new S c :: repInL new S rest) = _
      simp only [rcL]
      rw [rc_not_mem p sr new (repIn new S c) (repIn_not_mem new S p c hpc2 hpn),
        rc_repIn_hitL p sr new S rest hndr hpr
          (fun d2 hd2 => hP d2 (hliftr d2 hd2))
          (fun d2 hd2 => hSR d2 (hliftr d2 hd2)) hS hnt hpn hsn]
      show some (repIn new S c :: repInL new (S ++ [sr]) rest) =
        some (repIn new (S ++ [sr]) c :: repInL new (S ++ [sr]) rest)
      rw [repIn_extend new S sr c hsrc]

end

/-! ## C3: from the partial replacement to the structural replacement -/

mutual

theorem repIn_nil : ∀ (new : XElem) (e : XElem), repIn new [] e = e
  | new, .node i t a x cs => by
    simp only [repIn]
    rw [if_neg (fun hc => List.not_mem_nil i hc.2)]
    exact congrArg (XElem.node i t a x) (repIn_nilL new cs)

theorem repIn_nilL : ∀ (new : XElem) (cs : List XElem), repInL new [] cs = cs
  | _, [] => rfl
  | new, c :: cs => by
    simp only [repInL]
    rw [repIn_nil new c, repIn_nilL new cs]

end

mutual

theorem repIn_eq_replaceMap : ∀ (new : XElem) (S : List Nat) (e : XElem),
    (∀ d ∈ allElems e, d.tag = "SpatialReference" → d.eid ∈ S) →
    repIn new S e = replaceMapSR new e
  | new, S, .node i t a x cs, h => by
    simp only [repIn, replaceMapSR]
    by_cases ht : t = "SpatialReference"
    · have hiS : i ∈ S := h (.node i t a x cs) (self_mem_allElems _) ht
      rw [if_pos ⟨ht, hiS⟩, if_pos ht]
    · rw [if_neg (fun hc => ht hc.1), if_neg ht]
      exact congrArg (XElem.node i t a x)
        (repIn_eq_replaceMapL new S cs
          (fun d hd => h d (List.mem_cons.mpr (Or.inr hd))))

theorem repIn_eq_replaceMapL : ∀ (new : XElem) (S : List Nat) (cs : List XElem),
    (∀ d ∈ allElemsL cs, d.tag = "SpatialReference" → d.eid ∈ S) →
    repInL new S cs = replaceMapSRL new cs
  | _, _, [], _ => rfl
  | new, S, c :: cs, h => by
    simp only [repInL, replaceMapSRL]
    rw [repIn_eq_replaceMap new S c
        (fun d hd => h d (List.mem_append.mpr (Or.inl hd))),
      repIn_eq_replaceMapL new S cs
        (fun d hd => h d (List.mem_append.mpr (Or.inr hd)))]

end

theorem srIds_single (new : XElem) (hnt : new.tag = "SpatialReference")
    (hns : srIdsL new.children = []) : srIds new = [new.eid] := by
  cases new with
  | node i t a x cs =>
    have ht : t = "SpatialReference" := hnt
    have hcs : srIdsL cs = [] := hns
    simp only [srIds]
    rw [if_pos ht, hcs]
    rfl

mutual

theorem srIds_length_replaceMap : ∀ (new e : XElem),
    (∀ d ∈ allElems e, d.tag = "SpatialReference" → srIdsL d.children = []) →
    new.tag = "SpatialReference" → srIdsL new.children = [] →
    (srIds (replaceMapSR new e)).length = (srIds e).length
  | new, .node i t a x cs, h, hnt, hns => by
    simp only [replaceMapSR]
    by_cases ht : t = "SpatialReference"
    · rw [if_pos ht, srIds_single new hnt hns]
      have hcs : srIdsL cs = [] := h (.node i t a x cs) (self_mem_allElems _) ht
      simp only [srIds]
      rw [if_pos ht, hcs]
      rfl
    · rw [if_neg ht]
      simp only [srIds]
      rw [if_neg ht, if_neg ht]
      exact srIds_length_replaceMapL new cs
        (fun d hd => h d (List.mem_cons.mpr (Or.inr hd))) hnt hns

theorem srIds_length_replaceMapL : ∀ (new : XElem) (cs : List XElem),
    (∀ d ∈ allElemsL cs, d.tag = "SpatialReference" → srIdsL d.children = []) →
    new.tag = "SpatialReference" → srIdsL new.children = [] →
    (srIdsL (replaceMapSRL new cs)).length = (srIdsL cs).length
  | _, [], _, _, _ => rfl
  | new, c :: cs, h, hnt, hns => by
    simp only [replaceMapSRL, srIdsL, List.length_append]
    rw [srIds_length_replaceMap new c
        (fun d hd => h d (List.mem_append.mpr (Or.inl hd))) hnt hns,
      srIds_length_replaceMapL new cs
        (fun d hd => h d (List.mem_append.mpr (Or.inr hd))) hnt hns]

end

theorem replaceMapSR_tag (new c : XElem) (hct : c.tag ≠ "SpatialReference") :
    (replaceMapSR new c).tag = c.tag := by
  cases c with
  | node i t a x cs =>
    simp only [replaceMapSR]
    rw [if_neg (by exact hct)]
    rfl

theorem replaceMapSR_sr (new c : XElem) (hct : c.tag = "SpatialReference") :
    replaceMapSR new c = new := by
  cases c with
  | node i t a x cs =>
    simp only [replaceMapSR]
    rw [if_pos (by exact hct)]

mutual

theorem stripSR_replaceMap : ∀ (new e : XElem), new.tag = "SpatialReference" →
    e.tag ≠ "SpatialReference" → stripSR (replaceMapSR new e) = stripSR e
  | new, .node i t a x cs, hnt, het => by
    simp only [replaceMapSR]
    rw [if_neg (by exact het)]
    simp only [stripSR]
    exact congrArg (XElem.node i t a x) (stripSR_replaceMapL new cs hnt)

theorem stripSR_replaceMapL : ∀ (new : XElem) (cs : List XElem),
    new.tag = "SpatialReference" →
    stripSRL (replaceMapSRL new cs) = stripSRL cs
  | _, [], _ => rfl
  | new, c :: cs, hnt => by
    simp only [replaceMapSRL, stripSRL]
    by_cases hct : c.tag = "SpatialReference"
    · rw [replaceMapSR_sr new c hct, if_pos hnt, if_pos hct]
      exact stripSR_replaceMapL new cs hnt
    · rw [if_neg (fun hc => hct ((replaceMapSR_tag new c hct) ▸ hc)), if_neg hct,
        stripSR_replaceMap new c hnt hct, stripSR_replaceMapL new cs hnt]

end

theorem fold_stepSR (doc new : XElem)
    (hnd : (allIds doc).Nodup) (hnn : noNestedSR doc)
    (hroot : doc.tag ≠ "SpatialReference")
    (hdisj : ∀ z ∈ allIds new, z ∉ allIds doc)
    (hnt : new.tag = "SpatialReference") :
    ∀ (L2 L1 : List Nat), srIds doc = L1 ++ L2 →
    List.foldl (stepSR (parentPairs doc) new) (some (repIn new L1 doc)) L2 =
      some (repIn new (srIds doc) doc)
  | [], L1, hsplit => by
    rw [List.append_nil] at hsplit
    rw [List.foldl_nil, hsplit]
  | sr :: L2, L1, hsplit => by
    have hsrmem : sr ∈ srIds doc := by
      rw [hsplit]
      exact List.mem_append.mpr (Or.inr (List.mem_cons_self _ _))
    obtain ⟨dsr, hdsr, hdsrt, hdsre⟩ := (mem_srIds_iff sr doc).mp hsrmem
    have hsrall : sr ∈ allIds doc := (mem_allIds_iff sr doc).mpr ⟨dsr, hdsr, hdsre⟩
    have hsrne : ¬ sr = doc.eid := by
      intro he
      have hde : dsr = doc :=
        eid_inj hnd hdsr (self_mem_allElems doc) (by rw [hdsre, he])
      exact hroot (hde ▸ hdsrt)
    have hsrch : sr ∈ allIdsL doc.children := by
      cases doc with
      | node i t a x cs =>
        rcases List.mem_cons.mp hsrall with h | h
        · exact absurd h hsrne
        · exact h
    obtain ⟨P, hPmem, ⟨ch, hch, hche⟩, hlk⟩ := parent_lookup doc hnd sr hsrch
    have hchmem : ch ∈ allElems doc := mem_child_allElems hPmem hch
    have hcht : ch.tag = "SpatialReference" := by
      have hcheq : ch = dsr := eid_inj hnd hchmem hdsr (by rw [hche, hdsre])
      rw [hcheq]
      exact hdsrt
    have hPt : P.tag ≠ "SpatialReference" := by
      intro hPt2
      have hempty := hnn P hPmem hPt2
      have hmem2 : ch.eid ∈ srIdsL P.children :=
        mem_srIdsL_of_sr ((mem_allElemsL_iff ch P.children).mpr
          ⟨ch, hch, self_mem_allElems ch⟩) hcht
      rw [hempty] at hmem2
      exact absurd hmem2 (List.not_mem_nil _)
    have hP : ∀ d ∈ allElems doc, d.eid = P.eid → d.tag ≠ "SpatialReference" ∧
        ∃ ch2 ∈ d.children, ch2.eid = sr ∧ ch2.tag = "SpatialReference" := by
      intro d hd hde
      have hdP : d = P := eid_inj hnd hd hPmem hde
      rw [hdP]
      exact ⟨hPt, ch, hch, hche, hcht⟩
    have hSR : ∀ d ∈ allElems doc, d.tag = "SpatialReference" → P.eid ∉ allIds d := by
      intro d hd hdt hmem
      obtain ⟨d2, hd2, hd2e⟩ := (mem_allIds_iff P.eid d).mp hmem
      have hd2doc : d2 ∈ allElems doc := allElems_trans doc d d2 hd hd2
      have hd2P : d2 = P := eid_inj hnd hd2doc hPmem hd2e
      by_cases hPd : P = d
      · exact hPt (hPd ▸ hdt)
      · have hPind : P ∈ allElemsL d.children := by
          cases d with
          | node di dt da dx dcs =>
            rw [hd2P] at hd2
            rcases List.mem_cons.mp hd2 with h | h
            · exact absurd h hPd
            · exact h
        have hchd : ch ∈ allElemsL d.children :=
          allElems_transL d.children P ch hPind (mem_child_allElems (self_mem_allElems P) hch)
        have hmem3 : ch.eid ∈ srIdsL d.children := mem_srIdsL_of_sr hchd hcht
        rw [hnn d hd hdt] at hmem3
        exact absurd hmem3 (List.not_mem_nil _)
    have hPall : P.eid ∈ allIds doc := (mem_allIds_iff P.eid doc).mpr ⟨P, hPmem, rfl⟩
    have hpn : P.eid ∉ allIds new := fun hmem => hdisj _ hmem hPall
    have hsn : sr ∉ allIds new := fun hmem => hdisj _ hmem hsrall
    have hsrnodup : (srIds doc).Nodup := (srIds_sublist doc).nodup hnd
    have hsrL1 : sr ∉ L1 := by
      rw [hsplit] at hsrnodup
      intro hmem
      exact (List.disjoint_of_nodup_append hsrnodup) hmem (List.mem_cons_self _ _)
    have hstep : stepSR (parentPairs doc) new (some (repIn new L1 doc)) sr =
        some (repIn new (L1 ++ [sr]) doc) := by
      simp only [stepSR, hlk]
      exact rc_repIn_hit P.eid sr new L1 doc hnd hPall hP hSR hsrL1 hnt hpn hsn
    rw [List.foldl_cons, hstep]
    exact fold_stepSR doc new hnd hnn hroot hdisj hnt L2 (L1 ++ [sr])
      (by rw [hsplit, List.append_assoc]; rfl)

/-- C3 (amended): for every input document with distinct element identities
in which no `SpatialReference` element is nested inside another and the root
is not itself a `SpatialReference`, and for a freshly generated replacement
fragment (a `SpatialReference` element without nested occurrences, disjoint
identities), `replaceSpatialReference` completes and returns exactly the
in-place structural replacement `replaceMapSR`: every `SpatialReference`
element is replaced by the fragment at the same child index under the same
parent, the document still contains the same number of `SpatialReference`
elements, and erasing all `SpatialReference` subtrees yields the same
document as before — the relative order of all other siblings is
unchanged. -/
theorem replaceSpatialReference_structural (doc new : XElem)
    (hnd : (allIds doc).Nodup) (hnn : noNestedSR doc)
    (hroot : doc.tag ≠ "SpatialReference")
    (hdisj : ∀ z ∈ allIds new, z ∉ allIds doc)
    (hnt : new.tag = "SpatialReference")
    (hns : srIdsL new.children = []) :
    replaceSpatialReference new doc = some (replaceMapSR new doc) ∧
    srCount (replaceMapSR new doc) = srCount doc ∧
    stripSR (replaceMapSR new doc) = stripSR doc := by
  refine ⟨?_, ?_, ?_⟩
  · unfold replaceSpatialReference
    have h := fold_stepSR doc new hnd hnn hroot hdisj hnt (srIds doc) [] rfl
    rw [repIn_nil new doc] at h
    rw [h, repIn_eq_replaceMap new (srIds doc) doc
      (fun d hd hdt => (mem_srIds_iff d.eid doc).mpr ⟨d, hd, hdt, rfl⟩)]
  · unfold srCount
    exact srIds_length_replaceMap new doc hnn hnt hns
  · exact stripSR_replaceMap new doc hnt hroot

/-- C3 witness: the amended theorem instantiated on a two-occurrence
document and a fresh fragment. -/
theorem replaceSpatialReference_structural_witness :
    (allIds twoSRDoc).Nodup ∧ noNestedSR twoSRDoc ∧
    twoSRDoc.tag ≠ "SpatialReference" ∧
    (∀ z ∈ allIds freshSRFragment, z ∉ allIds twoSRDoc) ∧
    freshSRFragment.tag = "SpatialReference" ∧
    srIdsL freshSRFragment.children = [] ∧
    replaceSpatialReference freshSRFragment twoSRDoc =
      some (replaceMapSR freshSRFragment twoSRDoc) ∧
    srCount (replaceMapSR freshSRFragment twoSRDoc) = srCount twoSRDoc ∧
    stripSR (replaceMapSR freshSRFragment twoSRDoc) = stripSR twoSRDoc := by
  obtain ⟨h1, h2, h3⟩ := replaceSpatialReference_structural twoSRDoc freshSRFragment
    (by decide) (by decide) (by decide) (by decide) rfl rfl
  exact ⟨by decide, by decide, by decide, by decide, rfl, rfl, h1, h2, h3⟩
